import Mathlib

/-!
Verification development for the FHIR CMC stability-testing backends
(sponsor-app, cro-app).  The Python handlers are shallowly embedded as
pure Lean functions over an explicit resource model; every outgoing HTTP
call is an oracle field of a `World` record and every write is recorded
in an explicit trace, so the handlers become total functions
`World → Except HttpExc Output × Trace`.
-/

namespace FhirCmc

/-! ### JSON values (opaque blobs carried in extension slots) -/

/-- Closed JSON value variant used for the opaque `parameters` /
`criteria` / `result-details` blobs. -/
inductive Json where
  | null
  | bool (b : Bool)
  | num (n : Int)
  | str (s : String)
  | arr (elems : List Json)
  | obj (fields : List (String × Json))
deriving Repr, BEq

/-- The empty JSON mapping, the initial value of every blob field. -/
def Json.emptyObj : Json := .obj []

/-! ### Generic FHIR resource model

These structures carry exactly the fields the Python handlers read or
write; a JSON key that may be absent is an `Option`.  Python code
distinguishes `"k" in d` (key present) from `d.get("k", default)`;
`Option` captures both. -/

/-- A FHIR reference object (`{"reference": ..., "display": ...}`);
`resourceId` models the `_resource.id` path read by the sponsor app. -/
structure Reference where
  reference : Option String := none
  display : Option String := none
  resourceId : Option String := none
deriving Repr, BEq

/-- A nested (second-level) extension entry, as used by the
`plan-definition-shared-organizations` and `stability-test-definitions`
extensions. -/
structure SubExt where
  url : Option String := none
  valueString : Option String := none
  valueReference : Option Reference := none
deriving Repr, BEq

/-- A top-level extension slot entry. -/
structure Extension where
  url : Option String := none
  valueString : Option String := none
  valueDateTime : Option String := none
  valueBoolean : Option Bool := none
  valueInteger : Option Int := none
  valueReference : Option Reference := none
  sub : Option (List SubExt) := none
deriving Repr, BEq

/-- A coding (`{"system": ..., "code": ...}`), used for meta tags,
topic codings and useContext codes. -/
structure Coding where
  system : Option String := none
  code : Option String := none
  display : Option String := none
deriving Repr, BEq

/-- Resource meta information. -/
structure MetaInfo where
  tag : Option (List Coding) := none
  lastUpdated : Option String := none
  source : Option String := none
deriving Repr, BEq

/-- An identifier entry (`{"system": ..., "value": ...}`). -/
structure Identifier where
  system : Option String := none
  value : Option String := none
deriving Repr, BEq

/-- A useContext entry on an ActivityDefinition. -/
structure UseContext where
  code : Option Coding := none
  valueReference : Option Reference := none
deriving Repr, BEq

/-- An entry holding a list of codings (used for `topic` and
`category`). -/
structure CodeableEntry where
  coding : Option (List Coding) := none
deriving Repr, BEq

/-- An Observation `valueQuantity`.  Numeric values are carried as
their decimal rendering, since the handlers only ever stringify them. -/
structure Quantity where
  value : Option String := none
  unit : Option String := none
deriving Repr, BEq

/-- A `code` element (`{"text": ..., "coding": [...]}`). -/
structure CodeInfo where
  text : Option String := none
  coding : Option (List Coding) := none
deriving Repr, BEq

/-- A `note` entry (`{"text": ...}`). -/
structure NoteEntry where
  text : Option String := none
deriving Repr, BEq

/-- A `performer` entry (`{"display": ...}`). -/
structure PerformerEntry where
  display : Option String := none
deriving Repr, BEq

/-- A `deviceName` entry on a Device resource. -/
structure DeviceName where
  name : Option String := none
deriving Repr, BEq

/-- The `batch` sub-object of a Medication resource. -/
structure BatchInfo where
  lotNumber : Option String := none
  expirationDate : Option String := none
  extension : Option (List Extension) := none
deriving Repr, BEq

/-- A Medication `ingredient` entry. -/
structure IngredientEntry where
  itemReference : Option Reference := none
deriving Repr, BEq

/-- A PlanDefinition action node: a condition with nested timepoint
actions (one recursive level is all the handlers traverse). -/
inductive ActionNode where
  | mk (id : Option String) (title : Option String)
       (description : Option String) (sub : Option (List ActionNode))

/-- Action id accessor. -/
def ActionNode.id : ActionNode → Option String
  | .mk i _ _ _ => i

/-- Action title accessor. -/
def ActionNode.title : ActionNode → Option String
  | .mk _ t _ _ => t

/-- Action description accessor. -/
def ActionNode.description : ActionNode → Option String
  | .mk _ _ d _ => d

/-- Nested actions (timepoints) accessor; models the `"action"` key. -/
def ActionNode.sub : ActionNode → Option (List ActionNode)
  | .mk _ _ _ s => s

/-- Replace the nested action list of a node. -/
def ActionNode.withSub (a : ActionNode) (s : Option (List ActionNode)) : ActionNode :=
  .mk a.id a.title a.description s

/-- A generic repository resource: the union of every field any handler
touches on PlanDefinition, ActivityDefinition, Observation, Device,
Medication and Organization resources. -/
structure Resource where
  resourceType : Option String := none
  id : Option String := none
  active : Option Bool := none
  meta : Option MetaInfo := none
  extension : Option (List Extension) := none
  identifier : Option (List Identifier) := none
  title : Option String := none
  name : Option String := none
  description : Option String := none
  status : Option String := none
  action : Option (List ActionNode) := none
  useContext : Option (List UseContext) := none
  topic : Option (List CodeableEntry) := none
  category : Option (List CodeableEntry) := none
  subjectReference : Option Reference := none
  subject : Option Reference := none
  code : Option CodeInfo := none
  basedOn : Option (List Reference) := none
  effectiveDateTime : Option String := none
  valueQuantity : Option Quantity := none
  valueString : Option String := none
  note : Option (List NoteEntry) := none
  performer : Option (List PerformerEntry) := none
  deviceName : Option (List DeviceName) := none
  lotNumber : Option String := none
  manufactureDate : Option String := none
  batch : Option BatchInfo := none
  ingredient : Option (List IngredientEntry) := none

/-! ### HTTP and request modelling -/

/-- Outcome of one `requests` call: either a transport-level exception
(`conn`, carrying `str(e)`) or a response with a status code, a parsed
JSON body and the raw response text. -/
inductive ReqRes (α : Type) where
  | conn (msg : String)
  | resp (status : Nat) (body : α) (text : String)

/-- A `requests` exception as observed by handler code: the optional
response status (absent for transport errors) and `str(e)`. -/
structure ReqErr where
  status : Option Nat := none
  msg : String := ""
deriving Repr, BEq

/-- `resp = call(); resp.raise_for_status(); body = resp.json()` —
raises for status `>= 400`, otherwise yields the parsed body. -/
def ReqRes.toExc : ReqRes α → Except ReqErr (Nat × α × String)
  | .conn m => .error { status := none, msg := m }
  | .resp s b t =>
      if 400 ≤ s then
        .error { status := some s, msg := "HTTP error " ++ toString s }
      else .ok (s, b, t)

/-- `200 <= status < 300` success test used where handlers check the
status code themselves instead of calling `raise_for_status`. -/
def is2xx (s : Nat) : Bool := 200 ≤ s && s < 300

/-- A FastAPI `HTTPException`. -/
structure HttpExc where
  status : Nat
  detail : String
deriving Repr, BEq

/-- How a handler can fail: a raised `HTTPException`, or an uncaught
Python exception (e.g. `ValueError`), which FastAPI surfaces as a 500. -/
inductive Failure where
  | http (e : HttpExc)
  | uncaught (msg : String)
deriving Repr, BEq

/-! ### Small Python-semantics helpers -/

/-- Python `s[a:b]` slice (clamps out-of-range bounds). -/
def pySlice (s : String) (a b : Nat) : String :=
  String.mk ((s.toList.drop a).take (b - a))

/-- Python `s.startswith(pre)` (structurally recursive, so it reduces
in the kernel). -/
def pyStartsWith (s pre : String) : Bool :=
  List.isPrefixOf pre.toList s.toList

/-- Fuel-indexed worker for `pySplit`; the fuel is at least the input
length, so it never runs out for a non-empty separator. -/
def pySplitAux (sep : List Char) : Nat → List Char → List Char → List (List Char)
  | 0, acc, _ => [acc.reverse]
  | fuel + 1, acc, xs =>
    if List.isPrefixOf sep xs then
      acc.reverse :: pySplitAux sep fuel [] (xs.drop sep.length)
    else
      match xs with
      | [] => [acc.reverse]
      | c :: rest => pySplitAux sep fuel (c :: acc) rest

/-- Python `s.split(sep)` for a non-empty separator. -/
def pySplit (s sep : String) : List String :=
  (pySplitAux sep.toList (s.toList.length + 1) [] s.toList).map String.mk

/-- Fuel-indexed worker for `pyReplace`. -/
def pyReplaceAux (pat rep : List Char) : Nat → List Char → List Char
  | 0, xs => xs
  | fuel + 1, xs =>
    if List.isPrefixOf pat xs then rep ++ pyReplaceAux pat rep fuel (xs.drop pat.length)
    else
      match xs with
      | [] => []
      | c :: rest => c :: pyReplaceAux pat rep fuel rest

/-- Python `s.replace(pat, rep)`: every non-overlapping occurrence,
left to right. -/
def pyReplace (s pat rep : String) : String :=
  String.mk (pyReplaceAux pat.toList rep.toList (s.toList.length + 1) s.toList)

/-- Python `pat in s` substring test. -/
def strContains (s pat : String) : Bool := (pySplit s pat).length != 1

/-- Python string truthiness for an `Optional[str]`: present and
non-empty. -/
def optStrTruthy (o : Option String) : Bool := (o.getD "") != ""

/-- `d.get(key, "")` for an optional string. -/
def orEmpty (o : Option String) : String := o.getD ""

/-! ### Extension-URL constants (the fixed encoding scheme) -/

def sponsorUrl : String := "http://example.org/fhir/StructureDefinition/sponsor"
def sponsorIdUrl : String := "http://example.org/fhir/StructureDefinition/sponsor-id"
def sharedDateUrl : String := "http://example.org/fhir/StructureDefinition/sharedDate"
def sharedWithCROUrl : String := "http://example.org/fhir/StructureDefinition/sharedWithCRO"
def sharedOrgsUrl : String := "http://example.org/fhir/StructureDefinition/plan-definition-shared-organizations"
def sponsorOrgUrl : String := "http://example.org/fhir/StructureDefinition/sponsor-organization"
def partialShareUrl : String := "http://example.org/fhir/StructureDefinition/plan-definition-partial-share"
def stabilityTestDefsUrl : String := "http://example.org/fhir/StructureDefinition/stability-test-definitions"
def stabilityTestProtocolUrl : String := "http://example.org/fhir/StructureDefinition/stability-test-protocol"
def orgUrlExtUrl : String := "http://example.org/fhir/StructureDefinition/organization-url"
def orgApiKeyExtUrl : String := "http://example.org/fhir/StructureDefinition/organization-api-key"
def sharedWithCroBatchUrl : String := "http://example.org/fhir/StructureDefinition/shared-with-cro"
def sharedWithOrgsUrl : String := "http://example.org/fhir/StructureDefinition/shared-with-organizations"
def medicationTypeUrl : String := "http://example.org/fhir/StructureDefinition/medication-type"
def batchProtocolUrl : String := "http://example.org/fhir/StructureDefinition/batch-protocol"
def protocolIdentSystem : String := "http://example.org/fhir/identifier/protocol"
def tagsSystem : String := "http://example.org/fhir/tags"
def testProtocolRefUrl : String := "http://example.org/fhir/StructureDefinition/test-protocol-reference"
def timepointUrl : String := "http://example.org/fhir/StructureDefinition/protocol-timepoint"
def timepointTitleUrl : String := "http://example.org/fhir/StructureDefinition/protocol-timepoint-title"
def sharedWithSponsorUrl : String := "http://example.org/fhir/StructureDefinition/shared-with-sponsor"
def parameterResultsUrl : String := "http://example.org/fhir/StructureDefinition/parameter-results"
def criteriaResultsUrl : String := "http://example.org/fhir/StructureDefinition/criteria-results"
def resultDetailsUrl : String := "http://example.org/fhir/StructureDefinition/result-details"
def testParametersUrl : String := "http://example.org/fhir/StructureDefinition/stability-test-parameters"
def testCriteriaUrl : String := "http://example.org/fhir/StructureDefinition/stability-test-acceptance-criteria"
def testTypeUrl : String := "http://example.org/fhir/StructureDefinition/test-type"
def testTypesSystem : String := "http://example.org/fhir/stability-test-types"
def obsDefsUrl : String := "http://example.org/fhir/StructureDefinition/observation-definitions"
def specimenDefUrl : String := "http://example.org/fhir/StructureDefinition/specimen-definition"
def manufactureDateUrl : String := "http://example.org/fhir/StructureDefinition/manufactureDate"
def quantityUrl : String := "http://example.org/fhir/StructureDefinition/quantity"
def medicinalProductUrl : String := "http://example.org/fhir/StructureDefinition/medicinal-product"

/-! ### CRO app: domain (pydantic) models -/

/-- cro-app `Protocol` model. -/
structure Protocol where
  id : String
  title : String
  description : Option String
  sponsor : String
  status : String
  shared_date : String
  action : List ActionNode

/-- cro-app `Batch` model. -/
structure Batch where
  id : String
  protocol_id : String
  batch_number : String
  manufacture_date : String
  quantity : Int
  status : String
deriving Repr, BEq

/-- cro-app `TestResult` model.  The decoder always supplies every
field, so blob fields are plain `Json` here. -/
structure TestResult where
  id : Option String := none
  protocol_id : Option String := none
  batch_id : Option String := none
  test_definition_id : String := ""
  timepoint_id : Option String := none
  timepoint_title : Option String := none
  result_date : String := ""
  result_time : Option String := none
  result_value : String := ""
  result_unit : String := ""
  notes : Option String := none
  status : String := "completed"
  performed_by : String := ""
  share_with_sponsor : Bool := false
  sponsor_id : Option String := none
  parameter_results : Json := Json.emptyObj
  criteria_results : Json := Json.emptyObj
  result_details : Json := Json.emptyObj

/-- cro-app `ShareResultRequest` model. -/
structure ShareResultRequest where
  share_with_sponsor : Bool := true
  finalize : Bool := false
  notes : Option String := none

/-- Ambient Python standard-library behaviour the handlers rely on:
`json.loads` (`none` = `JSONDecodeError`), `json.dumps`, `float(...)`
(`none` = `ValueError`; the parsed number is carried as its rendering),
and successive `datetime.now().isoformat()` readings.  A realistic
clock yields a different string on every call (microsecond precision),
which matters because `convert_plandefinition_to_protocol` compares two
separate readings. -/
structure PyEnv where
  loads : String → Option Json
  dumps : Json → String
  toFloat : String → Option String
  nowA : String
  nowB : String

/-! ### CRO app: FHIR → model decoders (`main.py` lines 165-367) -/

/-- Sponsor-name extraction in `convert_plandefinition_to_protocol`:
first `sponsor` extension that has a `valueString` key wins; if the
result is still the default `"Unknown"`, fall back to `meta.source`. -/
def protocolSponsorOf (pd : Resource) : String :=
  let fromExt :=
    (pd.extension.getD []).foldl
      (fun acc e =>
        match acc with
        | some _ => acc
        | none =>
          if e.url == some sponsorUrl then
            match e.valueString with
            | some s => some s
            | none => none
          else none)
      none
  let sponsor := fromExt.getD ("Unknown")
  if sponsor == "Unknown" then
    match pd.meta with
    | some m => (m.source.getD sponsor)
    | none => sponsor
  else sponsor

/-- Shared-date extraction: current time, overridden by the first
`sharedDate` extension carrying a `valueDateTime`; if the value still
equals a *fresh* `datetime.now()` reading (`nowB`), fall back to
`meta.lastUpdated`. -/
def protocolSharedDateOf (nowA nowB : String) (pd : Resource) : String :=
  let fromExt :=
    (pd.extension.getD []).foldl
      (fun acc e =>
        match acc with
        | some _ => acc
        | none =>
          if e.url == some sharedDateUrl then
            match e.valueDateTime with
            | some s => some s
            | none => none
          else none)
      none
  let sharedDate := fromExt.getD nowA
  if sharedDate == nowB then
    match pd.meta with
    | some m => (m.lastUpdated.getD sharedDate)
    | none => sharedDate
  else sharedDate

/-- `convert_plandefinition_to_protocol`: fails (Python `ValueError`)
when the resource has no (non-empty) id; every other absent field takes
its coded default. -/
def convert_plandefinition_to_protocol (nowA nowB : String) (pd : Resource) :
    Except String Protocol :=
  if orEmpty pd.id == "" then .error ("PlanDefinition must have an ID")
  else
    .ok
      { id := orEmpty pd.id
        title := pd.title.getD ("Untitled Protocol")
        description := pd.description
        sponsor := protocolSponsorOf pd
        status := pd.status.getD ("unknown")
        shared_date := protocolSharedDateOf nowA nowB pd
        action := pd.action.getD [] }

/-- Protocol-id lookup for `convert_device_to_batch`: identifier entry
first, then the `batch-protocol` extension reference. -/
def batchProtocolIdOf (device : Resource) : String :=
  let fromIdent :=
    (device.identifier.getD []).foldl
      (fun acc i =>
        match acc with
        | some _ => acc
        | none =>
          if i.system == some protocolIdentSystem then some (orEmpty i.value)
          else none)
      none
  let pid := fromIdent.getD ""
  if pid == "" then
    match device.extension with
    | none => pid
    | some exts =>
      (exts.foldl
        (fun acc e =>
          match acc with
          | some _ => acc
          | none =>
            if e.url == some batchProtocolUrl then
              let ref := orEmpty ((e.valueReference.getD {}).reference)
              if ref != "" && pyStartsWith ref ("PlanDefinition/") then
                some (((pySplit ref ("/")).getD 1 ""))
              else none
            else none)
        none).getD pid
  else pid

/-- Batch-number lookup: first `deviceName` entry, else
`"Lot " ++ lotNumber`, else the default. -/
def batchNumberOf (device : Resource) : String :=
  match device.deviceName with
  | some (d :: _) => d.name.getD ("Unknown")
  | _ =>
    match device.lotNumber with
    | some l => if l == "" then "Unknown Batch" else "Lot " ++ l
    | none => "Unknown Batch"

/-- Manufacture-date lookup: the `manufactureDate` field, falling back
to the first `manufactureDate` extension when the field value is falsy
(present but empty). -/
def batchManufactureDateOf (now : String) (device : Resource) : String :=
  let md := device.manufactureDate.getD now
  if md == "" then
    match device.extension with
    | none => md
    | some exts =>
      ((exts.foldl
        (fun acc e =>
          match acc with
          | some _ => acc
          | none =>
            if e.url == some manufactureDateUrl then
              some (e.valueDateTime.getD now)
            else none)
        none).getD md)
  else md

/-- Batch quantity lookup: first `quantity` extension carrying a
`valueInteger`. -/
def batchQuantityOf (device : Resource) : Int :=
  ((device.extension.getD []).foldl
    (fun acc e =>
      match acc with
      | some _ => acc
      | none =>
        if e.url == some quantityUrl then
          match e.valueInteger with
          | some n => some n
          | none => none
        else none)
    none).getD 0

/-- `convert_device_to_batch`: fails when the resource has no id. -/
def convert_device_to_batch (now : String) (device : Resource) :
    Except String Batch :=
  if orEmpty device.id == "" then .error ("Device must have an ID")
  else
    .ok
      { id := orEmpty device.id
        protocol_id := batchProtocolIdOf device
        batch_number := batchNumberOf device
        manufacture_date := batchManufactureDateOf now device
        quantity := batchQuantityOf device
        status := device.status.getD ("registered") }

/-- The blob-field fold of `convert_observation_to_test_result` (and of
the test parameters / criteria extraction in `get_protocol_tests`):
every matching extension overwrites the accumulator when its
`valueString` parses; a missing `valueString` or a `JSONDecodeError`
leaves the accumulator unchanged (the exception is swallowed). -/
def blobFieldOf (loads : String → Option Json) (url : String)
    (exts : List Extension) : Json :=
  exts.foldl
    (fun acc e =>
      if e.url == some url then
        match e.valueString with
        | some s =>
          match loads s with
          | some j => j
          | none => acc
        | none => acc
      else acc)
    Json.emptyObj

/-- Shared-with-sponsor flag fold: the last matching extension wins,
with `false` when it lacks a `valueBoolean`. -/
def sharedFlagOf (exts : List Extension) : Bool :=
  exts.foldl
    (fun acc e =>
      if e.url == some sharedWithSponsorUrl then e.valueBoolean.getD false
      else acc)
    false

/-- Protocol-reference / timepoint extraction fold (one pass, each
matching extension overwriting the running value). -/
def protoTimepointOf (exts : List Extension) :
    Option String × Option String × Option String :=
  exts.foldl
    (fun acc e =>
      if e.url == some testProtocolRefUrl then
        let ref := orEmpty ((e.valueReference.getD {}).reference)
        if ref != "" && pyStartsWith ref ("PlanDefinition/") then
          (some (pyReplace ref ("PlanDefinition/") ("")), acc.2.1, acc.2.2)
        else acc
      else if e.url == some timepointUrl then
        (acc.1, e.valueString, acc.2.2)
      else if e.url == some timepointTitleUrl then
        (acc.1, acc.2.1, e.valueString)
      else acc)
    (none, none, none)

/-- Test-definition-id extraction: `code.text`, overridden by the last
`basedOn` reference to an ActivityDefinition. -/
def testDefinitionIdOf (obs : Resource) : String :=
  let base := orEmpty ((obs.code.getD {}).text)
  (obs.basedOn.getD []).foldl
    (fun acc r =>
      let ref := orEmpty r.reference
      if pyStartsWith ref ("ActivityDefinition/") then
        pyReplace ref ("ActivityDefinition/") ("")
      else acc)
    base

/-- `observation.get("note", [{"text": ""}])[0].get("text", "")`: a
*present but empty* note list is an uncaught `IndexError`. -/
def noteTextOf (obs : Resource) : Except String String :=
  match obs.note with
  | none => .ok ""
  | some [] => .error ("IndexError: list index out of range")
  | some (n :: _) => .ok (orEmpty n.text)

/-- Performer display, with the same present-but-empty pitfall. -/
def performerDisplayOf (obs : Resource) : Except String String :=
  match obs.performer with
  | none => .ok "Unknown"
  | some [] => .error ("IndexError: list index out of range")
  | some (p :: _) => .ok (p.display.getD ("Unknown"))

/-- Observation value extraction: `valueQuantity` first (value and
unit), else `valueString`, else empty. -/
def obsValueOf (obs : Resource) : String × String :=
  match obs.valueQuantity with
  | some q => (orEmpty q.value, orEmpty q.unit)
  | none =>
    match obs.valueString with
    | some s => (s, "")
    | none => ("", "")

/-- Batch-id extraction: the `subject` reference with its `Device/`
prefix stripped, when `subject` is present and truthy. -/
def obsBatchIdOf (obs : Resource) : Option String :=
  match obs.subject with
  | some r =>
    if r.reference.isSome || r.display.isSome || r.resourceId.isSome then
      some (pyReplace (orEmpty r.reference) ("Device/") (""))
    else none
  | none => none

/-- The record built by `convert_observation_to_test_result` once the
fallible lookups have succeeded. -/
def mkTestResult (loads : String → Option Json) (now : String)
    (obs : Resource) (noteText perfDisplay : String) : TestResult :=
  let pt := protoTimepointOf (obs.extension.getD [])
  let v := obsValueOf obs
  { id := obs.id
    protocol_id := pt.1
    batch_id := obsBatchIdOf obs
    test_definition_id := testDefinitionIdOf obs
    timepoint_id := pt.2.1
    timepoint_title := pt.2.2
    result_date := obs.effectiveDateTime.getD now
    result_time := some (pySlice (obs.effectiveDateTime.getD now) 11 19)
    result_value := v.1
    result_unit := v.2
    notes := some noteText
    status := "final"
    performed_by := perfDisplay
    share_with_sponsor := sharedFlagOf (obs.extension.getD [])
    sponsor_id := none
    parameter_results := blobFieldOf loads parameterResultsUrl (obs.extension.getD [])
    criteria_results := blobFieldOf loads criteriaResultsUrl (obs.extension.getD [])
    result_details := blobFieldOf loads resultDetailsUrl (obs.extension.getD []) }

/-- `convert_observation_to_test_result`: fails on a missing id and on
a present-but-empty `note`/`performer` list; nothing else fails. -/
def convert_observation_to_test_result (loads : String → Option Json)
    (now : String) (obs : Resource) : Except String TestResult :=
  if orEmpty obs.id == "" then .error ("Observation must have an ID")
  else
    match noteTextOf obs with
    | .error e => .error e
    | .ok nt =>
      match performerDisplayOf obs with
      | .error e => .error e
      | .ok pf => .ok (mkTestResult loads now obs nt pf)

/-! ### CRO app: model → FHIR encoder (`main.py` lines 403-505) -/

/-- `convert_test_result_to_observation`. -/
def convert_test_result_to_observation (env : PyEnv) (tr : TestResult) :
    Resource :=
  let baseExts : List Extension :=
    (if optStrTruthy tr.protocol_id then
      [{ url := some testProtocolRefUrl
         valueReference :=
           some { reference := some ("PlanDefinition/" ++ orEmpty tr.protocol_id) } }]
     else [])
    ++ (if optStrTruthy tr.timepoint_id then
      [{ url := some timepointUrl, valueString := tr.timepoint_id }] else [])
    ++ (if optStrTruthy tr.timepoint_title then
      [{ url := some timepointTitleUrl, valueString := tr.timepoint_title }] else [])
    ++ (if tr.share_with_sponsor then
      [{ url := some sharedWithSponsorUrl, valueBoolean := some true }] else [])
    ++ (if tr.parameter_results != Json.emptyObj then
      [{ url := some parameterResultsUrl, valueString := some (env.dumps tr.parameter_results) }]
     else [])
    ++ (if tr.criteria_results != Json.emptyObj then
      [{ url := some criteriaResultsUrl, valueString := some (env.dumps tr.criteria_results) }]
     else [])
    ++ (if tr.result_details != Json.emptyObj then
      [{ url := some resultDetailsUrl, valueString := some (env.dumps tr.result_details) }]
     else [])
  let withValue : Resource → Resource := fun r =>
    if tr.result_unit != "" then
      match env.toFloat tr.result_value with
      | some v => { r with valueQuantity := some { value := some v, unit := some tr.result_unit } }
      | none => { r with valueString := some tr.result_value }
    else { r with valueString := some tr.result_value }
  withValue
    { resourceType := some ("Observation")
      status := some tr.status
      code := some { text := some tr.test_definition_id }
      effectiveDateTime :=
        some (tr.result_date ++
          (if optStrTruthy tr.result_time then "T" ++ orEmpty tr.result_time else ""))
      performer := some [{ display := some tr.performed_by }]
      extension := some baseExts
      subject :=
        if optStrTruthy tr.batch_id then
          some { reference := some ("Device/" ++ orEmpty tr.batch_id) }
        else none
      note :=
        if optStrTruthy tr.notes then some [{ text := some ("" ++ orEmpty tr.notes) }]
        else none }

/-! ### CRO app: repository world, write trace, handlers -/

/-- Result of `forward_result_to_sponsor` (which has its own catch-all
and never raises); the handlers only echo it back, so it is carried
opaquely. -/
structure ForwardResult where
  success : Bool := true
  message : String := ""
deriving Repr, BEq

/-- The CRO backend's view of the repository plus its external
collaborators.  `store` answers `GET /{type}/{id}`; a `none` means the
repository answered 404, which `fetch_fhir_resource` converts into an
`HTTPException(500)`.  `search` answers `GET /{type}` with the bundle's
entry list (`none` = bundle without an `entry` key); `tagSearch` is the
`_tag`-filtered variant.  `forwardResp` abstracts
`forward_result_to_sponsor`, whose own value is opaque to the claims;
the trace records whether it was invoked at all. -/
structure CroWorld where
  store : String → String → Option Resource
  search : String → Option (List Resource) := fun _ => none
  tagSearch : String → String → Option (List Resource) := fun _ _ => none
  forwardResp : Resource → ForwardResult := fun _ => {}

/-- One repository side effect performed by a CRO handler. -/
inductive CroOp where
  | put (ty id : String) (body : Resource)
  | del (ty id : String)
  | forward (body : Resource)

/-- Replay a trace of side effects against a store (updates overwrite,
deletes remove, forwards touch nothing locally). -/
def applyCroOps (store : String → String → Option Resource) :
    List CroOp → (String → String → Option Resource)
  | [] => store
  | .put ty i body :: rest =>
      applyCroOps (fun t j => if t == ty && j == i then some body else store t j) rest
  | .del ty i :: rest =>
      applyCroOps (fun t j => if t == ty && j == i then none else store t j) rest
  | .forward _ :: rest => applyCroOps store rest

/-- `fetch_fhir_resource(type, id)`: a repository miss surfaces as an
`HTTPException(500, "FHIR server error: ...")`. -/
def fetch_fhir_resource (w : CroWorld) (ty i : String) :
    Except HttpExc Resource :=
  match w.store ty i with
  | some r => .ok r
  | none => .error ⟨500, "FHIR server error: HTTP error 404"⟩

/-- `GET /results/{result_id}`: fetch plus decode; a decode error is an
uncaught `ValueError`. -/
def get_test_result (w : CroWorld) (env : PyEnv) (result_id : String) :
    Except Failure TestResult :=
  match fetch_fhir_resource w ("Observation") result_id with
  | .error e => .error (.http e)
  | .ok obs =>
    match convert_observation_to_test_result env.loads env.nowA obs with
    | .error e => .error (.uncaught e)
    | .ok tr => .ok tr

/-- `PUT /results/{result_id}`: refuses (403) to touch a result already
shared with the sponsor, before any repository write. -/
def update_test_result (w : CroWorld) (env : PyEnv) (result_id : String)
    (tr : TestResult) : Except Failure TestResult × List CroOp :=
  match get_test_result w env result_id with
  | .error e => (.error e, [])
  | .ok existing =>
    if existing.share_with_sponsor then
      (.error (.http ⟨403,
         "Cannot update a result that has been shared with the sponsor"⟩), [])
    else
      let obs := convert_test_result_to_observation env tr
      let obs := { obs with id := some result_id }
      let obs := { obs with category := some [{ coding := some [{ system := some ("http://example.org/fhir/observation-categories"), code := some ("stability-test") }] }] }
      let ops := [CroOp.put ("Observation") result_id obs]
      let ops :=
        if tr.share_with_sponsor && !existing.share_with_sponsor then
          ops ++ [CroOp.forward obs]
        else ops
      (.ok { tr with id := some result_id }, ops)

/-- `DELETE /results/{result_id}`: same 403 guard, then a repository
delete. -/
def delete_test_result (w : CroWorld) (env : PyEnv) (result_id : String) :
    Except Failure String × List CroOp :=
  match get_test_result w env result_id with
  | .error e => (.error e, [])
  | .ok existing =>
    if existing.share_with_sponsor then
      (.error (.http ⟨403,
         "Cannot delete a result that has been shared with the sponsor"⟩), [])
    else
      (.ok ("Test result deleted successfully"), [CroOp.del ("Observation") result_id])

/-- Return value of `POST /results/{result_id}/share`. -/
structure ShareResultOut where
  message : String
  forwarded : Option ForwardResult := none
deriving Repr, BEq

/-- The observation as rewritten by `POST /results/{id}/share`:
share-flag extensions replaced by a single true flag, optional sharing
note appended, status finalized on request. -/
def shareUpdatedObs (req : ShareResultRequest) (obs : Resource) : Resource :=
  let exts := (obs.extension.getD []).filter
    (fun e => !(e.url == some sharedWithSponsorUrl))
  let obs1 := { obs with extension := some (exts ++ [{ url := some sharedWithSponsorUrl, valueBoolean := some true }]) }
  let obs2 :=
    if optStrTruthy req.notes then
      { obs1 with note := some ((obs1.note.getD []) ++ [{ text := some ("Sharing notes: " ++ orEmpty req.notes) }]) }
    else obs1
  if req.finalize && !(obs2.status == some ("completed")) then
    { obs2 with status := some ("completed") }
  else obs2

/-- `POST /results/{result_id}/share`: an already-shared result is
answered with a message and no repository write or forward; otherwise
the share flag extension is replaced, notes/status applied, the
resource updated and forwarded to the sponsor. -/
def share_test_result (w : CroWorld) (env : PyEnv) (result_id : String)
    (req : ShareResultRequest) : Except Failure ShareResultOut × List CroOp :=
  match get_test_result w env result_id with
  | .error e => (.error e, [])
  | .ok existing =>
    if existing.share_with_sponsor then
      (.ok { message := "Result already shared with sponsor" }, [])
    else
      match fetch_fhir_resource w ("Observation") result_id with
      | .error e => (.error (.http e), [])
      | .ok obs =>
        let obs := shareUpdatedObs req obs
        (.ok { message := "Result shared with sponsor successfully",
               forwarded := some (w.forwardResp obs) },
         [CroOp.put ("Observation") result_id obs, CroOp.forward obs])

/-! ### CRO app: role-scoped protocol views (`main.py` lines 700-770) -/

/-- The meta-tag leg of the CRO visibility predicate. -/
def croTagMatch (pd : Resource) : Bool :=
  match pd.meta with
  | some m =>
    match m.tag with
    | some tags =>
      tags.any (fun tg =>
        tg.system == some tagsSystem && tg.code == some ("shared-protocol"))
    | none => false
  | none => false

/-- The legacy-extension leg of the CRO visibility predicate. -/
def croExtMatch (pd : Resource) : Bool :=
  match pd.extension with
  | some exts =>
    exts.any (fun e =>
      e.url == some sharedWithCROUrl || e.url == some sharedOrgsUrl)
  | none => false

/-- The CRO visibility predicate on protocols: the `shared-protocol`
meta tag is checked first; failing that, any extension whose url is one
of the two legacy markers counts. -/
def protocol_shared_with_cro (pd : Resource) : Bool :=
  if croTagMatch pd then true else croExtMatch pd

/-- The conversion loop of `GET /protocols`: keep the entries passing
the visibility predicate, decoding each (a decode error aborts the
whole request as an uncaught exception). -/
def protocolsOf (env : PyEnv) : List Resource → Except Failure (List Protocol)
  | [] => .ok []
  | pd :: rest =>
    if protocol_shared_with_cro pd then
      match convert_plandefinition_to_protocol env.nowA env.nowB pd with
      | .error e => .error (.uncaught e)
      | .ok p =>
        match protocolsOf env rest with
        | .error e => .error e
        | .ok ps => .ok (p :: ps)
    else protocolsOf env rest

/-- `GET /protocols`: list every visible protocol. -/
def get_protocols (w : CroWorld) (env : PyEnv) :
    Except Failure (List Protocol) :=
  match w.search ("PlanDefinition") with
  | none => .ok []
  | some entries => protocolsOf env entries

/-- `GET /protocols/{protocol_id}`: direct fetch with the visibility
guard (403 when the protocol is not shared with the CRO). -/
def get_protocol (w : CroWorld) (env : PyEnv) (protocol_id : String) :
    Except Failure Protocol :=
  match fetch_fhir_resource w ("PlanDefinition") protocol_id with
  | .error e => .error (.http e)
  | .ok pd =>
    if !protocol_shared_with_cro pd then
      .error (.http ⟨403,
        "This protocol is not shared with your organization"⟩)
    else
      match convert_plandefinition_to_protocol env.nowA env.nowB pd with
      | .error e => .error (.uncaught e)
      | .ok p => .ok p

/-! ### CRO app: tests-for-protocol lookup (`main.py` lines 772-945) -/

/-- Method 1: `stability-test-protocol` extension reference. -/
def testMatchMethod1 (t : Resource) (pid : String) : Bool :=
  match t.extension with
  | some exts =>
    exts.any (fun e =>
      e.url == some stabilityTestProtocolUrl &&
      orEmpty ((e.valueReference.getD {}).reference) == "PlanDefinition/" ++ pid)
  | none => false

/-- Method 2: `protocol:{id}` meta tag. -/
def testMatchMethod2 (t : Resource) (pid : String) : Bool :=
  match t.meta with
  | some m =>
    match m.tag with
    | some tags =>
      tags.any (fun tg =>
        tg.system == some tagsSystem && tg.code == some ("protocol:" ++ pid))
    | none => false
  | none => false

/-- Method 3: useContext entry with code `protocol` referencing the
plan. -/
def testMatchMethod3 (t : Resource) (pid : String) : Bool :=
  match t.useContext with
  | some ctxs =>
    ctxs.any (fun c =>
      (c.code.getD {}).code == some ("protocol") &&
      (c.valueReference.getD {}).reference == some ("PlanDefinition/" ++ pid))
  | none => false

/-- Method 4: protocol identifier entry. -/
def testMatchMethod4 (t : Resource) (pid : String) : Bool :=
  match t.identifier with
  | some idents =>
    idents.any (fun i =>
      i.system == some protocolIdentSystem && i.value == some pid)
  | none => false

/-- The association test of `get_protocol_tests`: the four methods are
tried in order, each only when every earlier one failed — which is
exactly short-circuit disjunction. -/
def test_matches_protocol (t : Resource) (pid : String) : Bool :=
  testMatchMethod1 t pid || testMatchMethod2 t pid ||
  testMatchMethod3 t pid || testMatchMethod4 t pid

/-- Test type extraction: topic coding first, then the `test-type`
extension. -/
def testTypeOf (t : Resource) : String :=
  let fromTopic :=
    (t.topic.getD []).foldl
      (fun acc topic =>
        (topic.coding.getD []).foldl
          (fun acc2 c =>
            if c.system == some testTypesSystem then c.code.getD ("Unknown")
            else acc2)
          acc)
      "Unknown"
  if fromTopic == "Unknown" then
    ((t.extension.getD []).foldl
      (fun acc e =>
        match acc with
        | some _ => acc
        | none =>
          if e.url == some testTypeUrl then some (e.valueString.getD ("Unknown"))
          else none)
      none).getD ("Unknown")
  else fromTopic

/-- The test object built for each matching ActivityDefinition. -/
structure TestInfo where
  id : String
  title : String
  description : String
  testType : String
  parameters : Json
  acceptance_criteria : Json
deriving Repr, BEq

/-- Build the test object from a matching ActivityDefinition. -/
def mkTestInfo (loads : String → Option Json) (t : Resource) : TestInfo :=
  { id := t.id.getD ("unknown")
    title := t.title.getD ("Unknown Test")
    description := t.description.getD ""
    testType := testTypeOf t
    parameters := blobFieldOf loads testParametersUrl (t.extension.getD [])
    acceptance_criteria := blobFieldOf loads testCriteriaUrl (t.extension.getD []) }

/-- The ActivityDefinition filtering loop of `get_protocol_tests`:
append a test object for every entry that matches the protocol. -/
def activityTestsFor (loads : String → Option Json) (pid : String)
    (entries : List Resource) : List TestInfo :=
  entries.foldl
    (fun acc t =>
      if test_matches_protocol t pid then acc ++ [mkTestInfo loads t] else acc)
    []

/-! ### Sponsor app: request models and worlds -/

/-- sponsor-app `ProtocolShareRequest` model. -/
structure ProtocolShareRequest where
  organization_ids : List String
  share_mode : String := "fullProtocol"
  selected_tests : List String := []
  shareBatches : Bool := true
  selectedBatches : List String := []

/-- A search-bundle entry as read by the sponsor app. -/
structure BundleEntryRes where
  resource : Option Resource := none

/-- A search-bundle response body; `hasEntryKey` models whether the
`entry` key is present at all. -/
structure SearchBundle where
  resourceType : Option String := none
  hasEntryKey : Bool := false
  entry : List BundleEntryRes := []

/-- An entry of an outgoing transaction bundle. -/
structure BundleEntry where
  fullUrl : String
  resource : Resource
  method : String
  reqUrl : String

/-- One HTTP call issued by the sponsor app against an *external*
organization's endpoint. -/
inductive Submission where
  | orgSearch (url : String)
  | orgCreate (url : String) (body : Resource)
  | postPlanDef (url : String) (body : Resource)
  | postBundle (url : String) (entries : List BundleEntry)

/-- One write issued by the sponsor app against its *local* repository
during `share_protocol`. -/
inductive LocalWrite where
  | putPlanDef (id : String) (body : Resource)
  | putMedication (id : String) (body : Resource)

/-- Is a local write a PlanDefinition update? -/
def LocalWrite.isPlanDefPut : LocalWrite → Bool
  | .putPlanDef _ _ => true
  | .putMedication _ _ => false

/-- External-server responses consumed by
`ensure_sponsor_organization_exists`. -/
structure EnsureWorld where
  searchResp : ReqRes SearchBundle := .conn ""
  createResp : ReqRes Resource := .conn ""

/-- External-server responses consumed by
`push_protocol_to_external_server`. -/
structure PushWorld where
  ensureW : EnsureWorld := {}
  postResp : ReqRes String := .conn ""

/-- Responses consumed while processing one target organization inside
`share_protocol`. -/
structure OrgWorld where
  orgFetch : ReqRes Resource := .conn ""
  testsFetch : ReqRes SearchBundle := .conn ""
  batchFetch : String → ReqRes Resource := fun _ => .conn ""
  refFetch : String → String → ReqRes Resource := fun _ _ => .conn ""
  bundlePost : ReqRes String := .conn ""
  pushW : PushWorld := {}

/-- The whole environment of one `POST /protocols/{id}/share` call. -/
structure ShareWorld where
  planDefFetch : ReqRes Resource := .conn ""
  localPut : ReqRes Resource := .conn ""
  markBatchFetch : String → ReqRes Resource := fun _ => .conn ""
  orgW : String → OrgWorld := fun _ => {}

/-- Clock readings used by the sponsor handlers (`isoformat` and the
compact `strftime` rendering); no sponsor handler ever compares two
readings, so one value per rendering suffices. -/
structure SponsorEnv where
  now : String := ""
  nowCompact : String := ""

/-- Per-organization result entry of the share report.  The
`organization_name` key is absent (`none`) in the fetch-failure
entries. -/
structure OrgShareResult where
  organization_id : String
  organization_name : Option String := none
  success : Bool
  message : String
deriving Repr, BEq

/-- The 200-level return value of `share_protocol`. -/
structure ShareOut where
  message : String
  share_results : List OrgShareResult
  batches_shared : Option Nat := none

/-! ### Sponsor app: `ensure_sponsor_organization_exists`
(`main.py` lines 810-901) -/

/-- The Organization resource registered on the target server for the
sponsor. -/
def sponsorOrgResource (sponsor_id sponsor_name : String) : Resource :=
  { resourceType := some ("Organization")
    active := some true
    name := some sponsor_name
    identifier := some [{ system := some ("http://example.org/fhir/sponsor-id"),
                          value := some sponsor_id }]
    meta := some { tag := some [{ system := some tagsSystem,
                                  code := some ("sponsor-organization") }] }
    extension := some [{ url := some ("http://example.org/fhir/StructureDefinition/organization-type"),
                         valueString := some ("sponsor") }] }

/-- Search the target server for the sponsor organization, creating it
when absent; every internal failure is swallowed into `none`
(the function has a catch-all). -/
def ensure_sponsor_organization_exists (ew : EnsureWorld)
    (sponsor_id sponsor_name external_server_url : String) :
    Option String × List Submission :=
  let searchSub := [Submission.orgSearch
    (external_server_url ++ "/Organization?identifier=" ++ sponsor_id)]
  match ew.searchResp with
  | .conn _ => (none, searchSub)
  | .resp s body _ =>
    let doCreate : Unit → Option String × List Submission := fun _ =>
      let org := sponsorOrgResource sponsor_id sponsor_name
      let subs := searchSub ++ [Submission.orgCreate
        (external_server_url ++ "/Organization") org]
      match ew.createResp with
      | .conn _ => (none, subs)
      | .resp cs cbody _ => (if is2xx cs then cbody.id else none, subs)
    if is2xx s && body.hasEntryKey then
      match body.entry with
      | e :: _ =>
        -- `entries[0]['resource']['id']`: a missing key is a KeyError,
        -- swallowed by the catch-all into None
        (match e.resource.bind Resource.id with
         | some i => some i
         | none => none, searchSub)
      | [] => doCreate ()
    else doCreate ()

/-! ### Sponsor app: `push_protocol_to_external_server`
(`main.py` lines 903-1094) -/

/-- Append a meta tag, creating `meta`/`tag` when absent. -/
def addMetaTag (r : Resource) (sys code : String) : Resource :=
  let m := r.meta.getD {}
  { r with meta := some { m with
      tag := some ((m.tag.getD []) ++ [{ system := some sys, code := some code }]) } }

/-- One pass over the extension list: collect the last `sponsor` /
`sponsor-id` values and refresh every `sharedDate` extension in place. -/
def pushScanExts (now : String) (exts : List Extension) :
    Option String × Option String × Bool × List Extension :=
  exts.foldl
    (fun acc e =>
      if e.url == some sponsorUrl then
        (e.valueString, acc.2.1, acc.2.2.1, acc.2.2.2 ++ [e])
      else if e.url == some sponsorIdUrl then
        (acc.1, e.valueString, acc.2.2.1, acc.2.2.2 ++ [e])
      else if e.url == some sharedDateUrl then
        (acc.1, acc.2.1, true, acc.2.2.2 ++ [{ e with valueDateTime := some now }])
      else (acc.1, acc.2.1, acc.2.2.1, acc.2.2.2 ++ [e]))
    (none, none, false, [])

/-- The `specificTests` action filter: an action selected by id is kept
whole; otherwise it is kept, restricted to its selected timepoints,
when at least one nested timepoint is selected. -/
def filterProtocolActions (sel : List String) (acts : List ActionNode) :
    List ActionNode :=
  acts.foldl
    (fun acc a =>
      if sel.contains (orEmpty a.id) then acc ++ [a]
      else
        match a.sub with
        | some subs =>
          if !subs.isEmpty then
            let ft := subs.filter (fun tp => sel.contains (orEmpty tp.id))
            if !ft.isEmpty then acc ++ [a.withSub (some ft)] else acc
          else acc
        | none => acc)
    []

/-- The `specificTests` filter of the `stability-test-definitions`
extension: keep only selected `test` sub-entries, dropping the whole
extension when nothing survives.  (The source mutates the list it is
iterating; this is its effect for the occurring case of at most one
such extension.) -/
def filterStabilityTestDefs (sel : List String) (exts : List Extension) :
    List Extension :=
  exts.filterMap
    (fun e =>
      if e.url == some stabilityTestDefsUrl then
        let ft := (e.sub.getD []).filter
          (fun t =>
            t.url == some ("test") &&
            (match (t.valueReference.getD {}).resourceId with
             | some i => sel.contains i
             | none => false))
        if ft.isEmpty then none else some { e with sub := some ft }
      else some e)

/-- The POST and result classification shared by both branches of the
push. -/
def finishPush (pw : PushWorld) (ensSubs : List Submission) (p : Resource)
    (external_server_url : String) (share_mode : String) :
    Bool × String × List Submission :=
  let p := addMetaTag p tagsSystem ("shared-protocol")
  let subs := ensSubs ++
    [Submission.postPlanDef (external_server_url ++ "/PlanDefinition") p]
  match pw.postResp with
  | .conn m =>
    (false, "Error sharing to " ++ external_server_url ++ ": " ++ m, subs)
  | .resp s _ text =>
    if is2xx s then
      if share_mode == "specificTests" then
        (true, "Successfully shared selected tests to " ++ external_server_url, subs)
      else (true, "Successfully shared to " ++ external_server_url, subs)
    else
      (false, "Failed to share to " ++ external_server_url ++ ": " ++ text, subs)

/-- `push_protocol_to_external_server`: strip the id, refresh sharing
metadata, register the sponsor organization remotely, optionally filter
to the selected tests, tag, and POST the protocol.  Note the inner
`if not selected_tests` guard is unreachable: the enclosing branch
already requires a non-empty selection. -/
def push_protocol_to_external_server (pw : PushWorld) (env : SponsorEnv)
    (protocol : Resource) (external_server_url : String)
    (_api_key : Option String) (share_mode : String)
    (selected_tests : List String) : Bool × String × List Submission :=
  let p := { protocol with id := none }
  let scan := pushScanExts env.now (p.extension.getD [])
  let sponsor_name :=
    if optStrTruthy scan.1 then orEmpty scan.1 else "Unknown Sponsor"
  let sponsor_id :=
    if optStrTruthy scan.2.1 then orEmpty scan.2.1
    else "UNKNOWN-" ++ env.nowCompact
  let shared_date_exists := scan.2.2.1
  let ens := ensure_sponsor_organization_exists pw.ensureW sponsor_id
    sponsor_name external_server_url
  let exts := scan.2.2.2
  let exts :=
    if !shared_date_exists then
      exts ++ [{ url := some sharedDateUrl, valueDateTime := some env.now }]
    else exts
  let exts := exts ++ [{ url := some sharedWithCROUrl, valueBoolean := some true }]
  let exts :=
    match ens.1 with
    | some oid =>
      exts ++ [{ url := some sponsorOrgUrl, valueReference := some { reference := some ("Organization/" ++ oid), display := some sponsor_name } }]
    | none => exts
  let p := { p with extension := some exts }
  if share_mode == "specificTests" && !selected_tests.isEmpty then
    if selected_tests.isEmpty then
      (false, "No tests selected for sharing to " ++ external_server_url, ens.2)
    else
      let p :=
        match p.action with
        | some acts =>
          if !acts.isEmpty then
            let p := { p with action := some (filterProtocolActions selected_tests acts) }
            { p with extension := some ((p.extension.getD []) ++ ([{ url := some partialShareUrl, valueBoolean := some true }] : List Extension)) }
          else p
        | none => p
      let p := { p with extension := some (filterStabilityTestDefs selected_tests (p.extension.getD [])) }
      finishPush pw ens.2 p external_server_url share_mode
  else finishPush pw ens.2 p external_server_url share_mode

/-! ### Sponsor app: `share_protocol` (`main.py` lines 1097-1655) -/

/-- The `org_references` list built from the request. -/
def orgRefsOf (org_ids : List String) : List SubExt :=
  org_ids.map (fun i =>
    { valueReference := some { reference := some ("Organization/" ++ i) } })

/-- The sharing extension recorded on the local protocol. -/
def shareExtensionOf (org_ids : List String) : Extension :=
  { url := some sharedOrgsUrl, sub := some (orgRefsOf org_ids) }

/-- The body of the single local protocol update: strip every existing
shared-organizations extension, then append the fresh one — but only
when the target list is non-empty (`if org_references:`). -/
def updatedLocalProtocol (proto : Resource) (org_ids : List String) : Resource :=
  let kept := (proto.extension.getD []).filter
    (fun e => !(e.url == some sharedOrgsUrl))
  { proto with extension := some (kept ++ (if org_ids.isEmpty then [] else [shareExtensionOf org_ids])) }

/-- The body written for each batch in the batch-marking loop. -/
def markBatchBody (org_ids : List String) (b : Resource) : Resource :=
  let exts := (b.extension.getD []).filter
    (fun e => !(e.url == some sharedWithCroBatchUrl))
  { b with extension := some (exts
      ++ [{ url := some sharedWithCroBatchUrl, valueBoolean := some true }]
      ++ [{ url := some sharedWithOrgsUrl, sub := some (orgRefsOf org_ids) }]
      ++ [{ url := some medicationTypeUrl, valueString := some ("stability-batch") }]) }

/-- The batch-marking loop: each batch is fetched and re-written; any
per-batch exception is logged and the loop continues (a fetch failure
means no write is issued for that batch). -/
def markBatchesLoop (w : ShareWorld) (org_ids : List String) :
    List String → List LocalWrite
  | [] => []
  | bid :: rest =>
    (match (w.markBatchFetch bid).toExc with
     | .error _ => []
     | .ok (_, b, _) => [LocalWrite.putMedication bid (markBatchBody org_ids b)])
    ++ markBatchesLoop w org_ids rest

/-- Rewrite the first extension with the given url to reference the
export protocol identity; a matching extension without a
`valueReference` is a Python `KeyError`.  Returns whether a matching
extension was found (the loop's `for ... else`). -/
def rewriteRefExts (url target : String) :
    List Extension → Except String (List Extension × Bool)
  | [] => .ok ([], false)
  | e :: rest =>
    if e.url == some url then
      match e.valueReference with
      | some vr =>
        .ok ({ e with valueReference := some { vr with reference := some ("PlanDefinition/" ++ target) } } :: rest, true)
      | none => .error ("KeyError: valueReference")
    else
      match rewriteRefExts url target rest with
      | .error m => .error m
      | .ok (rest2, found) => .ok (e :: rest2, found)

/-- Is an ActivityDefinition associated with the protocol (the bundle
branch uses only the extension-reference encoding)? -/
def testIsForProtocol (t : Resource) (pid : String) : Bool :=
  (t.extension.getD []).any
    (fun e =>
      e.url == some stabilityTestProtocolUrl &&
      (e.valueReference.getD {}).reference == some ("PlanDefinition/" ++ pid))

/-- Rewrite one associated test for export. -/
def externalTestOf (logicalId : String) (t : Resource) :
    Except String Resource :=
  match rewriteRefExts stabilityTestProtocolUrl logicalId (t.extension.getD []) with
  | .error m => .error m
  | .ok (exts, found) =>
    if found then .ok { t with extension := some exts }
    else
      .ok { t with extension := some (exts ++
        [{ url := some stabilityTestProtocolUrl,
           valueReference := some { reference := some ("PlanDefinition/" ++ logicalId) } }]) }

/-- Gather every test referencing the protocol from the server's
ActivityDefinition bundle, rewriting each for export.  A `KeyError`
aborts the whole (per-organization) bundle assembly. -/
def gatherAssociatedTests (pid logicalId : String) :
    List BundleEntryRes → Except String (List BundleEntry)
  | [] => .ok []
  | be :: rest =>
    let t := be.resource.getD {}
    if orEmpty t.id == "" then gatherAssociatedTests pid logicalId rest
    else if testIsForProtocol t pid then
      match externalTestOf logicalId t with
      | .error m => .error m
      | .ok t2 =>
        match gatherAssociatedTests pid logicalId rest with
        | .error m => .error m
        | .ok acc =>
          .ok ({ fullUrl := "ActivityDefinition/" ++ orEmpty t.id,
                 resource := t2, method := "PUT",
                 reqUrl := "ActivityDefinition/" ++ orEmpty t.id } :: acc)
    else gatherAssociatedTests pid logicalId rest

/-- Entry point honouring the bundle-presence truthiness check. -/
def associatedTestsOf (pid logicalId : String) (all_tests : SearchBundle) :
    Except String (List BundleEntry) :=
  if all_tests.resourceType == some ("Bundle") && all_tests.hasEntryKey &&
      !all_tests.entry.isEmpty then
    gatherAssociatedTests pid logicalId all_tests.entry
  else .ok []

/-- Build the export copy of one batch for the transaction bundle
(tag, sponsor attribution from the protocol, protocol identifier,
stability-batch code, protocol back-reference). -/
def buildExternalBatch (protocol_id logicalId : String)
    (existing_protocol b : Resource) : Except String Resource :=
  let b := addMetaTag b tagsSystem ("shared-batch")
  let sp := (existing_protocol.extension.getD []).foldl
    (fun acc e =>
      if e.url == some sponsorUrl then (e.valueString, acc.2)
      else if e.url == some sponsorIdUrl then (acc.1, e.valueString)
      else acc)
    ((none : Option String), (none : Option String))
  let exts := b.extension.getD []
  let exts := exts ++
    (if optStrTruthy sp.1 then
      ([{ url := some sponsorUrl, valueString := sp.1 }] : List Extension) else [])
  let exts := exts ++
    (if optStrTruthy sp.2 then
      ([{ url := some sponsorIdUrl, valueString := sp.2 }] : List Extension) else [])
  let idents := b.identifier.getD []
  let idents :=
    if idents.any (fun i =>
        i.system == some protocolIdentSystem && i.value == some protocol_id) then
      idents
    else idents ++ [{ system := some protocolIdentSystem, value := some protocol_id }]
  let newCode : CodeInfo :=
    { coding := some [{ system := some ("http://example.org/fhir/medication-types"),
                        code := some ("stability-batch") }],
      text := some (((b.code.getD {}).text).getD ("Stability Test Batch")) }
  match rewriteRefExts batchProtocolUrl logicalId exts with
  | .error m => .error m
  | .ok (exts2, found) =>
    let exts3 :=
      if found then exts2
      else exts2 ++
        [{ url := some batchProtocolUrl,
           valueReference := some { reference := some ("PlanDefinition/" ++ logicalId) } }]
    .ok { b with extension := some exts3, identifier := some idents, code := some newCode }

/-- The per-batch export loop inside the bundle branch: a failed fetch
or a `KeyError` during rewriting skips that batch only. -/
def gatherAssociatedBatches (ow : OrgWorld) (protocol_id logicalId : String)
    (existing_protocol : Resource) : List String → List BundleEntry
  | [] => []
  | bid :: rest =>
    (match (ow.batchFetch bid).toExc with
     | .error _ => []
     | .ok (_, b, _) =>
       match buildExternalBatch protocol_id logicalId existing_protocol b with
       | .error _ => []
       | .ok b2 =>
         [{ fullUrl := "Medication/" ++ bid, resource := b2, method := "PUT",
            reqUrl := "Medication/" ++ bid }])
    ++ gatherAssociatedBatches ow protocol_id logicalId existing_protocol rest

/-- Parse the id out of a `Type/id` reference of the expected type. -/
def refIdOf (ty reference : String) : Option String :=
  if pyStartsWith reference (ty ++ "/") then some ((pySplit reference ("/")).getD 1 "")
  else none

/-- `add_referenced_resource`: fetch and append one referenced
resource, deduplicating on the bare id; every failure is swallowed. -/
def addRef (ow : OrgWorld) (st : List BundleEntry × List String)
    (call : String × String) : List BundleEntry × List String :=
  match refIdOf call.1 call.2 with
  | none => st
  | some rid =>
    if st.2.contains rid then st
    else
      match (ow.refFetch call.1 rid).toExc with
      | .error _ => st
      | .ok (_, res, _) =>
        (st.1 ++ [{ fullUrl := call.1 ++ "/" ++ rid, resource := res,
                    method := "PUT", reqUrl := call.1 ++ "/" ++ rid }],
         st.2 ++ [rid])

/-- The ordered list of `add_referenced_resource` invocations: the
protocol's product reference, the shared organizations, then each
test's observation-definition and specimen-definition references. -/
def collectRefCalls (external_protocol : Resource) (tests : List BundleEntry) :
    List (String × String) :=
  (match external_protocol.subjectReference with
   | some r =>
     (match r.reference with
      | some ref => [("MedicinalProductDefinition", ref)]
      | none => [])
   | none => [])
  ++ (external_protocol.extension.getD []).foldl
      (fun acc e =>
        if e.url == some sharedOrgsUrl then
          acc ++ (e.sub.getD []).foldl
            (fun a2 se =>
              match se.valueReference with
              | some vr =>
                (match vr.reference with
                 | some ref => a2 ++ [("Organization", ref)]
                 | none => a2)
              | none => a2)
            []
        else acc)
      []
  ++ tests.foldl
      (fun acc te =>
        acc ++ (te.resource.extension.getD []).foldl
          (fun a2 e =>
            if e.url == some obsDefsUrl then
              a2 ++ (e.sub.getD []).foldl
                (fun a3 se =>
                  match se.valueReference with
                  | some vr =>
                    (match vr.reference with
                     | some ref => a3 ++ [("ObservationDefinition", ref)]
                     | none => a3)
                  | none => a3)
                []
            else if e.url == some specimenDefUrl then
              (match e.valueReference with
               | some vr =>
                 (match vr.reference with
                  | some ref => a2 ++ [("SpecimenDefinition", ref)]
                  | none => a2)
               | none => a2)
            else a2)
          [])
      []

/-- Middleware / Docker rewriting of the submission target url. -/
def rewriteTargetUrl (url : String) : String :=
  let t :=
    if strContains url ("/fhir") then
      pyReplace url ("/fhir") ("/sponsor/shared-resources")
    else url
  if strContains t ("localhost:8001") then
    pyReplace t ("localhost:8001") ("cro-backend:8000")
  else if strContains t ("localhost:8081") then
    pyReplace t ("localhost:8081") ("cro-fhir-server:8080")
  else t

/-- The human-readable success summary of a bundle submission. -/
def bundleSuccessMessage (nTests nBatches : Nat) (url target : String) : String :=
  let parts := ["Successfully shared protocol"]
    ++ (if nTests > 0 then [toString nTests ++ " test definitions"] else [])
    ++ (if nBatches > 0 then [toString nBatches ++ " batches"] else [])
  let endp :=
    if target != url then " to " ++ url ++ " via middleware " ++ target
    else " to " ++ url
  String.intercalate " and " parts ++ endp

/-- Extract the organization's endpoint url (first `organization-url`
extension; its possibly-missing `valueString`). -/
def orgUrlOf (org : Resource) : Option String :=
  match (org.extension.getD []).find? (fun e => e.url == some orgUrlExtUrl) with
  | some e => e.valueString
  | none => none

/-- Extract the organization's API key: the loop breaks on the first
truthy value, so observably this is the first non-empty key. -/
def orgApiKeyOf (org : Resource) : Option String :=
  ((org.extension.getD []).filterMap
    (fun e => if e.url == some orgApiKeyExtUrl then some (orEmpty e.valueString)
              else none)).find? (fun s => s != "")

/-- Does the request take the transaction-bundle path (full protocol,
or specific tests with a non-empty selection)? -/
def bundleBranchCond (req : ProtocolShareRequest) : Bool :=
  req.share_mode == "fullProtocol" ||
  (req.share_mode == "specificTests" && !req.selected_tests.isEmpty)

/-- The transaction-bundle branch for one organization: gather tests,
batches and referenced resources, submit the bundle, classify the
outcome.  Any exception inside (tests fetch, `KeyError`, submission
transport error) becomes this organization's failure entry. -/
def processOrgBundle (ow : OrgWorld) (req : ProtocolShareRequest)
    (existing_protocol : Resource) (protocol_id : String) (url : String)
    (orgName : Option String) (oid : String) :
    OrgShareResult × List Submission :=
  match ow.testsFetch.toExc with
  | .error e =>
    ({ organization_id := oid, organization_name := orgName, success := false,
       message := "Error sharing protocol: " ++ e.msg }, [])
  | .ok (_, all_tests, _) =>
    let protocol_logical_id := protocol_id
    let external_protocol := addMetaTag existing_protocol tagsSystem ("shared-protocol")
    match associatedTestsOf protocol_id protocol_logical_id all_tests with
    | .error m =>
      ({ organization_id := oid, organization_name := orgName, success := false,
         message := "Error sharing protocol: " ++ m }, [])
    | .ok associated_tests =>
      let associated_batches :=
        if req.shareBatches && !req.selectedBatches.isEmpty then
          gatherAssociatedBatches ow protocol_id protocol_logical_id
            existing_protocol req.selectedBatches
        else []
      let base : List BundleEntry :=
        [{ fullUrl := "PlanDefinition/" ++ protocol_logical_id,
           resource := external_protocol, method := "PUT",
           reqUrl := "PlanDefinition/" ++ protocol_logical_id }]
        ++ associated_tests ++ associated_batches
      let withRefs :=
        (collectRefCalls external_protocol associated_tests).foldl
          (addRef ow) (base, [])
      let target := rewriteTargetUrl url
      let subs := [Submission.postBundle target withRefs.1]
      match ow.bundlePost with
      | .conn m =>
        ({ organization_id := oid, organization_name := orgName, success := false,
           message := "Error sharing protocol: " ++ m }, subs)
      | .resp s _ text =>
        if is2xx s then
          ({ organization_id := oid, organization_name := orgName, success := true,
             message := bundleSuccessMessage associated_tests.length
               associated_batches.length url target }, subs)
        else
          ({ organization_id := oid, organization_name := orgName, success := false,
             message := "Failed to share protocol: " ++ text }, subs)

/-- Process one target organization: fetch its record, find its
endpoint and key, then either the bundle branch or the plain push.
Every failure is recorded as this organization's entry; nothing
escapes the per-organization `try`. -/
def process_org (env : SponsorEnv) (req : ProtocolShareRequest)
    (existing_protocol : Resource) (protocol_id : String) (oid : String)
    (ow : OrgWorld) : OrgShareResult × List Submission :=
  match ow.orgFetch with
  | .conn m =>
    ({ organization_id := oid, organization_name := none, success := false,
       message := "Error processing organization: " ++ m }, [])
  | .resp s org _ =>
    if s == 200 then
      match orgUrlOf org with
      | some url =>
        let api_key := orgApiKeyOf org
        if bundleBranchCond req then
          processOrgBundle ow req existing_protocol protocol_id url org.name oid
        else
          let pr := push_protocol_to_external_server ow.pushW env
            existing_protocol url api_key req.share_mode req.selected_tests
          ({ organization_id := oid, organization_name := org.name,
             success := pr.1, message := pr.2.1 }, pr.2.2)
      | none =>
        ({ organization_id := oid,
           organization_name := some (org.name.getD ("Unknown")),
           success := false,
           message := "No FHIR server URL provided for this organization" }, [])
    else
      ({ organization_id := oid, organization_name := none, success := false,
         message := "Could not retrieve organization details: " ++ toString s }, [])

/-- `POST /protocols/{protocol_id}/share`: load the protocol (404/500
on failure), record the sharing intent locally with one update (whose
failure propagates to the outer handler as a 500), best-effort mark the
selected batches, then process every target organization independently
and return the collected report. -/
def share_protocol (env : SponsorEnv) (w : ShareWorld) (protocol_id : String)
    (req : ProtocolShareRequest) :
    Except HttpExc ShareOut × List LocalWrite × List Submission :=
  match w.planDefFetch.toExc with
  | .error e =>
    (match e.status with
     | some 404 =>
       (.error ⟨404, "Protocol with ID " ++ protocol_id ++ " not found"⟩, [], [])
     | _ =>
       (.error ⟨500, "Failed to verify protocol existence: " ++ e.msg⟩, [], []))
  | .ok (_, existing0, _) =>
    let existing_protocol := updatedLocalProtocol existing0 req.organization_ids
    let putWrite := [LocalWrite.putPlanDef protocol_id existing_protocol]
    let continueAfterPut : Unit →
        Except HttpExc ShareOut × List LocalWrite × List Submission := fun _ =>
      let batchWrites :=
        if req.shareBatches then
          markBatchesLoop w req.organization_ids req.selectedBatches
        else []
      let orgResults := req.organization_ids.map
        (fun oid => process_org env req existing_protocol protocol_id oid (w.orgW oid))
      (.ok { message := "Protocol " ++ protocol_id ++ " shared with " ++
               toString req.organization_ids.length ++ " organizations",
             share_results := orgResults.map (fun r => r.1),
             batches_shared :=
               if req.shareBatches then some req.selectedBatches.length else none },
       putWrite ++ batchWrites,
       orgResults.foldl (fun acc r => acc ++ r.2) [])
    match w.localPut with
    | .conn m =>
      (.error ⟨500, "Failed to share protocol: " ++ m⟩, putWrite, [])
    | .resp s _ text =>
      if 400 ≤ s then
        -- raise_for_status propagates to the outer RequestException
        -- handler, which prefers the response body text
        (.error ⟨500, "Failed to share protocol: " ++ text⟩, putWrite, [])
      else continueAfterPut ()

/-! ### Sponsor app: batch endpoints (`main.py` lines 2172-2331) -/

/-- sponsor-app `BatchCreate` model. -/
structure BatchCreate where
  name : String
  identifier : String
  protocol_id : Option String := none
  medicinal_product_id : Option String := none
  lot_number : Option String := none
  manufacturing_date : Option String := none
  expiry_date : Option String := none
  status : String := "active"

/-- The Medication resource body built by `POST /batches`.  Note that
`protocol_id` from the request is never consulted. -/
def create_batch_resource (b : BatchCreate) : Resource :=
  { resourceType := some ("Medication")
    code := some
      { coding := some [{ system := some ("http://example.org/stability-batches"),
                          code := some ("stability-batch"),
                          display := some ("Stability Test Batch") }],
        text := some b.name }
    status := some b.status
    identifier := some [{ system := some ("http://example.org/batch-identifiers"),
                          value := some b.identifier }]
    batch := some
      { lotNumber := b.lot_number, expirationDate := b.expiry_date,
        extension := some
          (if optStrTruthy b.manufacturing_date then
            ([{ url := some ("http://example.org/fhir/StructureDefinition/manufacturing-date"),
                valueDateTime := b.manufacturing_date }] : List Extension)
           else []) }
    extension := some
      (if optStrTruthy b.medicinal_product_id then
        ([{ url := some medicinalProductUrl,
            valueReference := some
              { reference := some ("MedicinalProductDefinition/" ++ orEmpty b.medicinal_product_id),
                display := some ("Medicinal Product Definition") } }] : List Extension)
       else []) }

/-- The medicinal product id read off the protocol's subject reference
(`None` when the protocol fetch failed or carries no such reference). -/
def medicinalProductIdOfProtocol (protocol : Option Resource) : Option String :=
  match protocol with
  | none => none
  | some p =>
    match p.subjectReference with
    | some r =>
      let ref := orEmpty r.reference
      if pyStartsWith ref ("MedicinalProductDefinition/") then
        some ((pySplit ref ("/")).getD 1 "")
      else none
    | none => none

/-- The per-medication filter of `GET /batches?protocol_id=...`: a
direct `batch-protocol` reference, else (when a truthy medicinal
product id is known) a `medicinal-product` extension or ingredient
reference. -/
def batch_matches_protocol (med : Resource) (pid : String)
    (mpid : Option String) : Bool :=
  let direct := (med.extension.getD []).any
    (fun e =>
      e.url == some batchProtocolUrl &&
      (e.valueReference.getD {}).reference == some ("PlanDefinition/" ++ pid))
  if direct then true
  else
    match mpid with
    | none => false
    | some m =>
      if m == "" then false
      else
        let viaExt := (med.extension.getD []).any
          (fun e =>
            e.url == some medicinalProductUrl &&
            (e.valueReference.getD {}).reference ==
              some ("MedicinalProductDefinition/" ++ m))
        if viaExt then true
        else
          (med.ingredient.getD []).any
            (fun ing =>
              match ing.itemReference with
              | some r => r.reference == some ("MedicinalProductDefinition/" ++ m)
              | none => false)

/-- The filtering stage of `GET /batches?protocol_id=...` over the
fetched Medication entries. -/
def get_batches_filtered (protocol : Option Resource) (meds : List Resource)
    (pid : String) : List Resource :=
  let mpid := medicinalProductIdOfProtocol protocol
  meds.filter (fun m => batch_matches_protocol m pid mpid)

/-! ## Theorems -/

/-! ### Shared helper lemmas -/

/-- A blob-field fold leaves the accumulator untouched when every
matching extension's string fails to parse. -/
theorem blobFold_const (loads : String → Option Json) (url : String)
    (exts : List Extension) (acc : Json)
    (h : ∀ e ∈ exts, e.url = some url → ∀ s, e.valueString = some s → loads s = none) :
    exts.foldl
      (fun acc e =>
        if e.url == some url then
          match e.valueString with
          | some s =>
            match loads s with
            | some j => j
            | none => acc
          | none => acc
        else acc)
      acc = acc := by
  induction exts generalizing acc with
  | nil => rfl
  | cons e rest ih =>
    simp only [List.foldl_cons]
    have hstep :
        (if e.url == some url then
          match e.valueString with
          | some s =>
            match loads s with
            | some j => j
            | none => acc
          | none => acc
        else acc) = acc := by
      by_cases hu : e.url = some url
      · cases hv : e.valueString with
        | none => simp [hu, hv]
        | some s => simp [hu, hv, h e (by simp) hu s hv]
      · have hf : (e.url == some url) = false := beq_eq_false_iff_ne.mpr hu
        simp [hf]
    rw [hstep]
    exact ih acc (fun e2 he2 => h e2 (by simp [he2]))

/-- `blobFieldOf` yields the empty mapping when every matching
extension's string is unparseable. -/
theorem blobFieldOf_parse_fail (loads : String → Option Json) (url : String)
    (exts : List Extension)
    (h : ∀ e ∈ exts, e.url = some url → ∀ s, e.valueString = some s → loads s = none) :
    blobFieldOf loads url exts = Json.emptyObj :=
  blobFold_const loads url exts Json.emptyObj h

/-- The shared-with-sponsor flag of a list ending in the freshly
appended `valueBoolean: true` extension is `true`. -/
theorem sharedFlagOf_append_true (l : List Extension) :
    sharedFlagOf (l ++ [{ url := some sharedWithSponsorUrl, valueBoolean := some true }]) = true := by
  unfold sharedFlagOf
  rw [List.foldl_append]
  simp

/-! ### C3 -/

/-- C3: a TestResult whose shared-with-sponsor flag is true cannot be
updated or deleted: both handlers answer 403 and issue no repository
write, leaving the stored resource unchanged. -/
theorem C3_shared_testresult_immutable (w : CroWorld) (env : PyEnv)
    (rid : String) (obs : Resource) (tr body : TestResult)
    (hstore : w.store ("Observation") rid = some obs)
    (hdec : convert_observation_to_test_result env.loads env.nowA obs = .ok tr)
    (hflag : tr.share_with_sponsor = true) :
    update_test_result w env rid body =
      (.error (.http ⟨403, "Cannot update a result that has been shared with the sponsor"⟩), []) ∧
    delete_test_result w env rid =
      (.error (.http ⟨403, "Cannot delete a result that has been shared with the sponsor"⟩), []) ∧
    applyCroOps w.store [] = w.store := by
  refine ⟨?_, ?_, rfl⟩ <;>
    simp [update_test_result, delete_test_result, get_test_result,
      fetch_fhir_resource, hstore, hdec, hflag]

/-- Concrete world for the C3 witness. -/
def obsW3 : Resource :=
  { id := some ("r1"),
    extension := some [{ url := some sharedWithSponsorUrl, valueBoolean := some true }] }

/-- Store holding just the shared observation. -/
def croW3 : CroWorld :=
  { store := fun t i => if t == "Observation" && i == "r1" then some obsW3 else none }

/-- Ambient Python environment used by the witnesses. -/
def envW : PyEnv :=
  { loads := fun _ => none, dumps := fun _ => "", toFloat := fun _ => none,
    nowA := "T0", nowB := "T1" }

/-- The decode of `obsW3` (shared-with-sponsor true, all defaults). -/
def trW3 : TestResult :=
  { id := some ("r1"), result_date := "T0", result_time := some (pySlice ("T0") 11 19),
    notes := some "", status := "final", performed_by := "Unknown",
    share_with_sponsor := true }

/-- C3 witness: the theorem applied to the concrete shared result. -/
theorem C3_shared_testresult_immutable_witness :
    update_test_result croW3 envW ("r1") {} =
      (.error (.http ⟨403, "Cannot update a result that has been shared with the sponsor"⟩), []) ∧
    delete_test_result croW3 envW ("r1") =
      (.error (.http ⟨403, "Cannot delete a result that has been shared with the sponsor"⟩), []) ∧
    applyCroOps croW3.store [] = croW3.store :=
  C3_shared_testresult_immutable croW3 envW ("r1") obsW3 trW3 {} rfl rfl rfl

/-! ### C10 -/

/-- The share update leaves the id untouched. -/
theorem shareUpdatedObs_id (req : ShareResultRequest) (obs : Resource) :
    (shareUpdatedObs req obs).id = obs.id := by
  unfold shareUpdatedObs
  cases h1 : optStrTruthy req.notes <;> simp [h1] <;> split <;> rfl

/-- The share update leaves the performer untouched. -/
theorem shareUpdatedObs_performer (req : ShareResultRequest) (obs : Resource) :
    (shareUpdatedObs req obs).performer = obs.performer := by
  unfold shareUpdatedObs
  cases h1 : optStrTruthy req.notes <;> simp [h1] <;> split <;> rfl

/-- The share update replaces the extension list by the filtered list
plus the fresh flag. -/
theorem shareUpdatedObs_extension (req : ShareResultRequest) (obs : Resource) :
    (shareUpdatedObs req obs).extension =
      some ((obs.extension.getD []).filter (fun e => !(e.url == some sharedWithSponsorUrl))
        ++ [{ url := some sharedWithSponsorUrl, valueBoolean := some true }]) := by
  unfold shareUpdatedObs
  cases h1 : optStrTruthy req.notes <;> simp [h1] <;> split <;> rfl

/-- The share update either keeps the note list or appends one entry. -/
theorem shareUpdatedObs_note (req : ShareResultRequest) (obs : Resource) :
    (shareUpdatedObs req obs).note =
      (if optStrTruthy req.notes then
        some ((obs.note.getD []) ++ [{ text := some ("Sharing notes: " ++ orEmpty req.notes) }])
       else obs.note) := by
  unfold shareUpdatedObs
  cases h1 : optStrTruthy req.notes <;> simp [h1] <;> split <;> rfl

/-- A decodable observation stays decodable after the share update, and
its decode carries the shared flag. -/
theorem convert_shareUpdated_ok (loads : String → Option Json) (now : String)
    (obs : Resource) (tr : TestResult) (req : ShareResultRequest)
    (hdec : convert_observation_to_test_result loads now obs = .ok tr) :
    ∃ tr2, convert_observation_to_test_result loads now (shareUpdatedObs req obs) = .ok tr2 ∧
      tr2.share_with_sponsor = true := by
  have hid : (orEmpty obs.id == "") = false := by
    cases hc : (orEmpty obs.id == "") with
    | false => rfl
    | true =>
      unfold convert_observation_to_test_result at hdec
      rw [hc] at hdec
      simp at hdec
  have hnote : ∃ nt, noteTextOf obs = .ok nt := by
    unfold convert_observation_to_test_result at hdec
    rw [hid] at hdec
    simp at hdec
    cases hnt : noteTextOf obs with
    | error e => rw [hnt] at hdec; simp at hdec
    | ok nt => exact ⟨nt, rfl⟩
  have hperf : ∃ pf, performerDisplayOf obs = .ok pf := by
    unfold convert_observation_to_test_result at hdec
    rw [hid] at hdec
    simp at hdec
    obtain ⟨nt, hnt⟩ := hnote
    rw [hnt] at hdec
    cases hpf : performerDisplayOf obs with
    | error e => rw [hpf] at hdec; simp at hdec
    | ok pf => exact ⟨pf, rfl⟩
  have hnote2 : ∃ nt2, noteTextOf (shareUpdatedObs req obs) = .ok nt2 := by
    obtain ⟨nt, hnt⟩ := hnote
    have hn := shareUpdatedObs_note req obs
    unfold noteTextOf at hnt ⊢
    cases hopt : optStrTruthy req.notes with
    | false =>
      simp only [hopt, Bool.false_eq_true, if_false] at hn
      rw [hn]
      exact ⟨nt, hnt⟩
    | true =>
      simp only [hopt, if_true] at hn
      cases hl : obs.note.getD [] with
      | nil => rw [hn, hl]; exact ⟨_, rfl⟩
      | cons a t => rw [hn, hl]; exact ⟨_, rfl⟩
  have hperf2 : ∃ pf2, performerDisplayOf (shareUpdatedObs req obs) = .ok pf2 := by
    obtain ⟨pf, hpf⟩ := hperf
    unfold performerDisplayOf at hpf ⊢
    rw [shareUpdatedObs_performer]
    exact ⟨pf, hpf⟩
  obtain ⟨nt2, hnt2⟩ := hnote2
  obtain ⟨pf2, hpf2⟩ := hperf2
  refine ⟨mkTestResult loads now (shareUpdatedObs req obs) nt2 pf2, ?_, ?_⟩
  · unfold convert_observation_to_test_result
    rw [shareUpdatedObs_id]
    simp [hid, hnt2, hpf2]
  · show sharedFlagOf ((shareUpdatedObs req obs).extension.getD []) = true
    rw [shareUpdatedObs_extension]
    exact sharedFlagOf_append_true _

/-- C10: sharing a TestResult is idempotent at the interface: a result
whose shared flag is already true is answered with an
already-shared message, no repository write and no forward; and after a
first successful share, a second share call performs no write, so
sharing twice leaves the same stored state as sharing once. -/
theorem C10_share_idempotent (w : CroWorld) (env : PyEnv) (rid : String)
    (obs : Resource) (tr : TestResult) (req req2 : ShareResultRequest)
    (hstore : w.store ("Observation") rid = some obs)
    (hdec : convert_observation_to_test_result env.loads env.nowA obs = .ok tr) :
    (tr.share_with_sponsor = true →
      share_test_result w env rid req =
        (.ok { message := "Result already shared with sponsor" }, []) ∧
      applyCroOps w.store [] = w.store) ∧
    (tr.share_with_sponsor = false →
      ∀ w2 : CroWorld,
        w2.store = applyCroOps w.store (share_test_result w env rid req).2 →
        (share_test_result w2 env rid req2).1 =
          .ok { message := "Result already shared with sponsor" } ∧
        (share_test_result w2 env rid req2).2 = [] ∧
        applyCroOps w2.store (share_test_result w2 env rid req2).2 = w2.store) := by
  constructor
  · intro hflag
    constructor
    · simp [share_test_result, get_test_result, fetch_fhir_resource, hstore, hdec, hflag]
    · rfl
  · intro hflag w2 hw2
    have hfirst : (share_test_result w env rid req).2 =
        [CroOp.put ("Observation") rid (shareUpdatedObs req obs),
         CroOp.forward (shareUpdatedObs req obs)] := by
      simp [share_test_result, get_test_result, fetch_fhir_resource, hstore, hdec, hflag]
    have hstore2 : w2.store ("Observation") rid = some (shareUpdatedObs req obs) := by
      rw [hw2, hfirst]
      simp [applyCroOps]
    obtain ⟨tr2, hdec2, hflag2⟩ :=
      convert_shareUpdated_ok env.loads env.nowA obs tr req hdec
    have hsecond : share_test_result w2 env rid req2 =
        (.ok { message := "Result already shared with sponsor" }, []) := by
      simp [share_test_result, get_test_result, fetch_fhir_resource, hstore2, hdec2, hflag2]
    exact ⟨by rw [hsecond], by rw [hsecond], by rw [hsecond]; rfl⟩

/-- Store for the C10 witness: one unshared observation. -/
def obsW10 : Resource := { id := some ("r2") }

/-- The C10 witness world. -/
def croW10 : CroWorld :=
  { store := fun t i => if t == "Observation" && i == "r2" then some obsW10 else none }

/-- The decode of `obsW10` (flag false, all defaults). -/
def trW10 : TestResult :=
  { id := some ("r2"), result_date := "T0", result_time := some (pySlice ("T0") 11 19),
    notes := some "", status := "final", performed_by := "Unknown",
    share_with_sponsor := false }

/-- C10 witness: the theorem applied to the concrete unshared result —
a second share call after the first writes nothing and leaves the
stored state fixed. -/
theorem C10_share_idempotent_witness :
    (share_test_result { croW10 with store := applyCroOps croW10.store (share_test_result croW10 envW ("r2") {}).2 } envW ("r2") {}).1 =
      .ok { message := "Result already shared with sponsor" } ∧
    (share_test_result { croW10 with store := applyCroOps croW10.store (share_test_result croW10 envW ("r2") {}).2 } envW ("r2") {}).2 = [] := by
  have h := (C10_share_idempotent croW10 envW ("r2") obsW10 trW10 {} {} rfl rfl).2 rfl
    { croW10 with store := applyCroOps croW10.store (share_test_result croW10 envW ("r2") {}).2 } rfl
  exact ⟨h.1, h.2.1⟩

/-! ### C8 -/

/-- The shared-date default of a resource with no extensions and no
meta is the first clock reading, whatever the second reads. -/
theorem protocolSharedDateOf_minimal (nowA nowB : String) :
    protocolSharedDateOf nowA nowB { id := some ("p1") } = nowA := by
  unfold protocolSharedDateOf
  cases hnb : (nowA == nowB) <;> simp [hnb]

/-- C8 counterexample: decoding a minimal PlanDefinition defaults the
title to the fixed sentinel "Untitled Protocol", which is neither the
empty string nor either clock reading (nor zero nor false) — so not
every absent field degrades to one of the claimed defaults. -/
theorem C8_sentinel_default_counterexample :
    convert_plandefinition_to_protocol ("2024-01-01T00:00:00.000001")
        ("2024-01-01T00:00:00.000002") { id := some ("p1") } =
      .ok { id := "p1", title := "Untitled Protocol", description := none,
            sponsor := "Unknown", status := "unknown",
            shared_date := "2024-01-01T00:00:00.000001", action := [] } ∧
    ("Untitled Protocol" ≠ "" ∧
     "Untitled Protocol" ≠ "2024-01-01T00:00:00.000001" ∧
     "Untitled Protocol" ≠ "2024-01-01T00:00:00.000002") :=
  ⟨rfl, by decide, by decide, by decide⟩

/-- C8 (amended): a resource with no id fails to decode into any of the
three identity-requiring entities with a missing-identity error, while
a resource carrying only an id decodes successfully with every other
field at its coded default (empty string, zero, false, the current
timestamp, or a fixed sentinel string). -/
theorem C8_missing_id_fails (nowA nowB now : String)
    (loads : String → Option Json) (r : Resource)
    (hid : r.id = none) (hnow : now ≠ "") :
    convert_plandefinition_to_protocol nowA nowB r =
      .error ("PlanDefinition must have an ID") ∧
    convert_device_to_batch now r = .error ("Device must have an ID") ∧
    convert_observation_to_test_result loads now r =
      .error ("Observation must have an ID") ∧
    convert_plandefinition_to_protocol nowA nowB { id := some ("p1") } =
      .ok { id := "p1", title := "Untitled Protocol", description := none,
            sponsor := "Unknown", status := "unknown", shared_date := nowA,
            action := [] } ∧
    convert_device_to_batch now { id := some ("d1") } =
      .ok { id := "d1", protocol_id := "", batch_number := "Unknown Batch",
            manufacture_date := now, quantity := 0, status := "registered" } ∧
    convert_observation_to_test_result loads now { id := some ("o1") } =
      .ok { id := some ("o1"), test_definition_id := "", result_date := now,
            result_time := some (pySlice now 11 19), result_value := "",
            result_unit := "", notes := some "", status := "final",
            performed_by := "Unknown", share_with_sponsor := false } := by
  have hb : (now == "") = false := beq_eq_false_iff_ne.mpr hnow
  refine ⟨?_, ?_, ?_, ?_, ?_, rfl⟩
  · unfold convert_plandefinition_to_protocol
    simp [hid, orEmpty]
  · unfold convert_device_to_batch
    simp [hid, orEmpty]
  · unfold convert_observation_to_test_result
    simp [hid, orEmpty]
  · unfold convert_plandefinition_to_protocol
    rw [protocolSharedDateOf_minimal]
    rfl
  · unfold convert_device_to_batch
    unfold batchManufactureDateOf
    simp [hb]
    rfl

/-- C8 witness: the amended theorem applied at concrete inputs. -/
theorem C8_missing_id_fails_witness :
    convert_plandefinition_to_protocol ("TA") ("TB") {} =
      .error ("PlanDefinition must have an ID") ∧
    convert_device_to_batch ("TN") {} = .error ("Device must have an ID") ∧
    convert_observation_to_test_result (fun _ => none) ("TN") {} =
      .error ("Observation must have an ID") ∧
    convert_plandefinition_to_protocol ("TA") ("TB") { id := some ("p1") } =
      .ok { id := "p1", title := "Untitled Protocol", description := none,
            sponsor := "Unknown", status := "unknown", shared_date := "TA",
            action := [] } ∧
    convert_device_to_batch ("TN") { id := some ("d1") } =
      .ok { id := "d1", protocol_id := "", batch_number := "Unknown Batch",
            manufacture_date := "TN", quantity := 0, status := "registered" } ∧
    convert_observation_to_test_result (fun _ => none) ("TN") { id := some ("o1") } =
      .ok { id := some ("o1"), test_definition_id := "", result_date := "TN",
            result_time := some (pySlice ("TN") 11 19), result_value := "",
            result_unit := "", notes := some "", status := "final",
            performed_by := "Unknown", share_with_sponsor := false } :=
  C8_missing_id_fails ("TA") ("TB") ("TN") (fun _ => none) {} rfl (by decide)

/-! ### C5 -/

/-- C5: when a parameters / criteria / result-details extension holds a
string that does not parse, the decoder maps that field to the empty
mapping, and whether the decode of the rest of the entity succeeds does
not depend on the parser at all (the failure is never propagated); the
same holds for the test parameters / acceptance criteria extracted in
the tests-for-protocol lookup. -/
theorem C5_malformed_json_tolerated (loads loads2 : String → Option Json)
    (now : String) (obs t : Resource)
    (hp : ∀ e ∈ obs.extension.getD [], e.url = some parameterResultsUrl →
          ∀ s, e.valueString = some s → loads s = none)
    (hc : ∀ e ∈ obs.extension.getD [], e.url = some criteriaResultsUrl →
          ∀ s, e.valueString = some s → loads s = none)
    (hd : ∀ e ∈ obs.extension.getD [], e.url = some resultDetailsUrl →
          ∀ s, e.valueString = some s → loads s = none)
    (hpt : ∀ e ∈ t.extension.getD [], e.url = some testParametersUrl →
          ∀ s, e.valueString = some s → loads s = none)
    (hct : ∀ e ∈ t.extension.getD [], e.url = some testCriteriaUrl →
          ∀ s, e.valueString = some s → loads s = none) :
    (∀ tr, convert_observation_to_test_result loads now obs = .ok tr →
      tr.parameter_results = Json.emptyObj ∧ tr.criteria_results = Json.emptyObj ∧
      tr.result_details = Json.emptyObj) ∧
    (convert_observation_to_test_result loads now obs).isOk =
      (convert_observation_to_test_result loads2 now obs).isOk ∧
    (mkTestInfo loads t).parameters = Json.emptyObj ∧
    (mkTestInfo loads t).acceptance_criteria = Json.emptyObj := by
  refine ⟨?_, ?_, ?_, ?_⟩
  · intro tr htr
    unfold convert_observation_to_test_result at htr
    by_cases hidc : (orEmpty obs.id == "") = true
    · rw [if_pos hidc] at htr
      simp at htr
    · rw [if_neg hidc] at htr
      cases hnt : noteTextOf obs with
      | error e => rw [hnt] at htr; simp at htr
      | ok nt =>
        rw [hnt] at htr
        cases hpf : performerDisplayOf obs with
        | error e => rw [hpf] at htr; simp at htr
        | ok pf =>
          rw [hpf] at htr
          have heq : mkTestResult loads now obs nt pf = tr := Except.ok.inj htr
          subst heq
          exact ⟨blobFieldOf_parse_fail _ _ _ hp,
                 blobFieldOf_parse_fail _ _ _ hc,
                 blobFieldOf_parse_fail _ _ _ hd⟩
  · unfold convert_observation_to_test_result
    by_cases hidc : (orEmpty obs.id == "") = true
    · rw [if_pos hidc, if_pos hidc]
    · rw [if_neg hidc, if_neg hidc]
      cases hnt : noteTextOf obs <;> simp [hnt] <;>
        cases hpf : performerDisplayOf obs <;> simp [hpf] <;> rfl
  · exact blobFieldOf_parse_fail _ _ _ hpt
  · exact blobFieldOf_parse_fail _ _ _ hct

/-- Observation with malformed JSON in all three blob extensions. -/
def obsC5 : Resource :=
  { id := some ("o9"),
    extension := some
      [{ url := some parameterResultsUrl, valueString := some ("not json") },
       { url := some criteriaResultsUrl, valueString := some ("also broken") },
       { url := some resultDetailsUrl, valueString := some ("nope") }] }

/-- Test definition with malformed JSON in both blob extensions. -/
def tC5 : Resource :=
  { id := some ("t9"),
    extension := some
      [{ url := some testParametersUrl, valueString := some ("bad") },
       { url := some testCriteriaUrl, valueString := some ("worse") }] }

/-- The decode of `obsC5` under a failing parser. -/
def trC5 : TestResult :=
  { id := some ("o9"), result_date := "T0", result_time := some (pySlice ("T0") 11 19),
    notes := some "", status := "final", performed_by := "Unknown" }

/-- C5 witness: the theorem applied to the malformed-JSON resources. -/
theorem C5_malformed_json_tolerated_witness :
    (trC5.parameter_results = Json.emptyObj ∧ trC5.criteria_results = Json.emptyObj ∧
      trC5.result_details = Json.emptyObj) ∧
    (convert_observation_to_test_result (fun _ => none) ("T0") obsC5).isOk =
      (convert_observation_to_test_result (fun _ => some (Json.str ("x"))) ("T0") obsC5).isOk ∧
    (mkTestInfo (fun _ => none) tC5).parameters = Json.emptyObj ∧
    (mkTestInfo (fun _ => none) tC5).acceptance_criteria = Json.emptyObj := by
  have h := C5_malformed_json_tolerated (fun _ => none) (fun _ => some (Json.str ("x")))
    ("T0") obsC5 tC5
    (by intro e he hu s hs; rfl) (by intro e he hu s hs; rfl)
    (by intro e he hu s hs; rfl) (by intro e he hu s hs; rfl)
    (by intro e he hu s hs; rfl)
  exact ⟨h.1 trC5 rfl, h.2.1, h.2.2.1, h.2.2.2⟩

/-! ### C4 -/

/-- Spec-side reading: the protocol carries the shared-protocol tag. -/
def SpecHasSharedTag (pd : Resource) : Prop :=
  ∃ m, pd.meta = some m ∧ ∃ tags, m.tag = some tags ∧
    ∃ tg ∈ tags, tg.system = some tagsSystem ∧ tg.code = some ("shared-protocol")

/-- Spec-side reading: the protocol carries one of the two legacy
shared extension markers (`sharedWithCRO` or
`plan-definition-shared-organizations`). -/
def SpecHasLegacyMarker (pd : Resource) : Prop :=
  ∃ exts, pd.extension = some exts ∧
    ∃ e ∈ exts, e.url = some sharedWithCROUrl ∨ e.url = some sharedOrgsUrl

/-- The tag leg decides exactly the spec-side tag property. -/
theorem croTagMatch_iff (pd : Resource) :
    croTagMatch pd = true ↔ SpecHasSharedTag pd := by
  unfold croTagMatch SpecHasSharedTag
  cases hm : pd.meta with
  | none => simp [hm]
  | some m =>
    cases ht : m.tag with
    | none => simp [hm, ht]
    | some tags => simp [hm, ht, List.any_eq_true]

/-- The extension leg decides exactly the spec-side marker property. -/
theorem croExtMatch_iff (pd : Resource) :
    croExtMatch pd = true ↔ SpecHasLegacyMarker pd := by
  unfold croExtMatch SpecHasLegacyMarker
  cases hx : pd.extension with
  | none => simp [hx]
  | some exts => simp [hx, List.any_eq_true]

/-- The visibility predicate is the disjunction of its two legs. -/
theorem protocol_shared_with_cro_eq (pd : Resource) :
    protocol_shared_with_cro pd = (croTagMatch pd || croExtMatch pd) := by
  unfold protocol_shared_with_cro
  cases h : croTagMatch pd <;> simp [h]

/-- Dropping a non-visible entry from the search result leaves the
protocol list unchanged. -/
theorem protocolsOf_skip (env : PyEnv) (p : Resource)
    (hp : protocol_shared_with_cro p = false) (l1 l2 : List Resource) :
    protocolsOf env (l1 ++ p :: l2) = protocolsOf env (l1 ++ l2) := by
  induction l1 with
  | nil => simp [protocolsOf, hp]
  | cons a rest ih =>
    show protocolsOf env (a :: (rest ++ p :: l2)) =
      protocolsOf env (a :: (rest ++ l2))
    unfold protocolsOf
    rw [ih]

/-- C4: a protocol is visible to the CRO view exactly when it carries
the shared-protocol meta tag or one of the two legacy shared extension
markers (tag checked first, either marker alone sufficient); a protocol
satisfying neither is dropped from the `GET /protocols` list and its
direct fetch fails with 403. -/
theorem C4_cro_visibility (w : CroWorld) (env : PyEnv) (pid : String)
    (pd p : Resource) (l1 l2 : List Resource) :
    (protocol_shared_with_cro pd = true ↔
      SpecHasSharedTag pd ∨ SpecHasLegacyMarker pd) ∧
    (protocol_shared_with_cro p = false →
      w.search ("PlanDefinition") = some (l1 ++ p :: l2) →
      get_protocols w env = protocolsOf env (l1 ++ l2)) ∧
    (protocol_shared_with_cro pd = false →
      w.store ("PlanDefinition") pid = some pd →
      get_protocol w env pid =
        .error (.http ⟨403, "This protocol is not shared with your organization"⟩)) := by
  refine ⟨?_, ?_, ?_⟩
  · rw [protocol_shared_with_cro_eq, Bool.or_eq_true, croTagMatch_iff, croExtMatch_iff]
  · intro hp hsearch
    unfold get_protocols
    rw [hsearch]
    exact protocolsOf_skip env p hp l1 l2
  · intro hpd hstore
    simp [get_protocol, fetch_fhir_resource, hstore, hpd]

/-- A protocol with only the shared tag. -/
def pdTagged : Resource :=
  { id := some ("pv1"),
    meta := some { tag := some [{ system := some tagsSystem, code := some ("shared-protocol") }] } }

/-- An otherwise-identical protocol with neither tag nor marker. -/
def pdHidden : Resource := { id := some ("pv2") }

/-- The C4 witness world: a store holding the hidden protocol, a search
answering both. -/
def croW4 : CroWorld :=
  { store := fun t i => if t == "PlanDefinition" && i == "pv2" then some pdHidden else none,
    search := fun t => if t == "PlanDefinition" then some [pdTagged, pdHidden] else none }

/-- C4 witness: the theorem applied to the concrete tagged and hidden
protocols. -/
theorem C4_cro_visibility_witness :
    (protocol_shared_with_cro pdTagged = true ↔
      SpecHasSharedTag pdTagged ∨ SpecHasLegacyMarker pdTagged) ∧
    get_protocols croW4 envW = protocolsOf envW [pdTagged] ∧
    get_protocol croW4 envW ("pv2") =
      .error (.http ⟨403, "This protocol is not shared with your organization"⟩) := by
  exact ⟨(C4_cro_visibility croW4 envW ("pv2") pdTagged pdHidden [pdTagged] []).1,
         (C4_cro_visibility croW4 envW ("pv2") pdTagged pdHidden [pdTagged] []).2.1 rfl rfl,
         (C4_cro_visibility croW4 envW ("pv2") pdHidden pdHidden [pdTagged] []).2.2 rfl rfl⟩

/-! ### C6 -/

/-- Spec-side encoding 1: the stability-test-protocol extension
reference. -/
def SpecTestEnc1 (t : Resource) (pid : String) : Prop :=
  ∃ exts, t.extension = some exts ∧ ∃ e ∈ exts,
    e.url = some stabilityTestProtocolUrl ∧
    orEmpty ((e.valueReference.getD {}).reference) = "PlanDefinition/" ++ pid

/-- Spec-side encoding 2: a `protocol:{id}` meta tag. -/
def SpecTestEnc2 (t : Resource) (pid : String) : Prop :=
  ∃ m, t.meta = some m ∧ ∃ tags, m.tag = some tags ∧
    ∃ tg ∈ tags, tg.system = some tagsSystem ∧ tg.code = some ("protocol:" ++ pid)

/-- Spec-side encoding 3: a useContext protocol reference. -/
def SpecTestEnc3 (t : Resource) (pid : String) : Prop :=
  ∃ ctxs, t.useContext = some ctxs ∧ ∃ c ∈ ctxs,
    (c.code.getD {}).code = some ("protocol") ∧
    (c.valueReference.getD {}).reference = some ("PlanDefinition/" ++ pid)

/-- Spec-side encoding 4: a protocol identifier entry. -/
def SpecTestEnc4 (t : Resource) (pid : String) : Prop :=
  ∃ idents, t.identifier = some idents ∧ ∃ i ∈ idents,
    i.system = some protocolIdentSystem ∧ i.value = some pid

/-- Method 1 decides encoding 1. -/
theorem testMatchMethod1_iff (t : Resource) (pid : String) :
    testMatchMethod1 t pid = true ↔ SpecTestEnc1 t pid := by
  unfold testMatchMethod1 SpecTestEnc1
  cases hx : t.extension with
  | none => simp [hx]
  | some exts => simp [hx, List.any_eq_true]

/-- Method 2 decides encoding 2. -/
theorem testMatchMethod2_iff (t : Resource) (pid : String) :
    testMatchMethod2 t pid = true ↔ SpecTestEnc2 t pid := by
  unfold testMatchMethod2 SpecTestEnc2
  cases hm : t.meta with
  | none => simp [hm]
  | some m =>
    cases ht : m.tag with
    | none => simp [hm, ht]
    | some tags => simp [hm, ht, List.any_eq_true]

/-- Method 3 decides encoding 3. -/
theorem testMatchMethod3_iff (t : Resource) (pid : String) :
    testMatchMethod3 t pid = true ↔ SpecTestEnc3 t pid := by
  unfold testMatchMethod3 SpecTestEnc3
  cases hu : t.useContext with
  | none => simp [hu]
  | some ctxs => simp [hu, List.any_eq_true]

/-- Method 4 decides encoding 4. -/
theorem testMatchMethod4_iff (t : Resource) (pid : String) :
    testMatchMethod4 t pid = true ↔ SpecTestEnc4 t pid := by
  unfold testMatchMethod4 SpecTestEnc4
  cases hi : t.identifier with
  | none => simp [hi]
  | some idents => simp [hi, List.any_eq_true]

/-- The test-collection fold is filtering followed by mapping. -/
theorem testsFold_eq (loads : String → Option Json) (pid : String)
    (entries : List Resource) (acc : List TestInfo) :
    entries.foldl
      (fun acc t =>
        if test_matches_protocol t pid then acc ++ [mkTestInfo loads t] else acc)
      acc =
      acc ++ (entries.filter (fun x => test_matches_protocol x pid)).map (mkTestInfo loads) := by
  induction entries generalizing acc with
  | nil => simp
  | cons a rest ih =>
    by_cases h : test_matches_protocol a pid
    · simp [List.foldl_cons, List.filter_cons, h, ih]
    · simp [List.foldl_cons, List.filter_cons, h, ih]

/-- C6: the tests-for-protocol lookup counts an ActivityDefinition as
associated with the protocol exactly when at least one of the four
encodings matches (the fixed try-in-order chain is short-circuit
disjunction, so any one encoding alone is sufficient); the produced
list is precisely the matching entries, so a test matching none of the
four is excluded. -/
theorem C6_test_association_fallback_chain (loads : String → Option Json)
    (pid : String) (t : Resource) (entries : List Resource) :
    (test_matches_protocol t pid = true ↔
      SpecTestEnc1 t pid ∨ SpecTestEnc2 t pid ∨ SpecTestEnc3 t pid ∨ SpecTestEnc4 t pid) ∧
    (activityTestsFor loads pid entries =
      (entries.filter (fun x => test_matches_protocol x pid)).map (mkTestInfo loads)) ∧
    (t ∈ entries → test_matches_protocol t pid = true →
      mkTestInfo loads t ∈ activityTestsFor loads pid entries) ∧
    (∀ d ∈ activityTestsFor loads pid entries,
      ∃ x ∈ entries, test_matches_protocol x pid = true ∧ d = mkTestInfo loads x) := by
  have hchar : activityTestsFor loads pid entries =
      (entries.filter (fun x => test_matches_protocol x pid)).map (mkTestInfo loads) :=
    testsFold_eq loads pid entries []
  refine ⟨?_, hchar, ?_, ?_⟩
  · unfold test_matches_protocol
    rw [Bool.or_eq_true, Bool.or_eq_true, Bool.or_eq_true,
      testMatchMethod1_iff, testMatchMethod2_iff, testMatchMethod3_iff,
      testMatchMethod4_iff]
    tauto
  · intro hmem hmatch
    rw [hchar]
    exact List.mem_map_of_mem _ (List.mem_filter.mpr ⟨hmem, hmatch⟩)
  · intro d hd
    rw [hchar] at hd
    obtain ⟨x, hx, hdx⟩ := List.mem_map.mp hd
    obtain ⟨hxe, hxp⟩ := List.mem_filter.mp hx
    exact ⟨x, hxe, hxp, hdx.symm⟩

/-- A test associated only via the meta-tag encoding. -/
def tM2 : Resource :=
  { id := some ("t2"),
    meta := some { tag := some [{ system := some tagsSystem, code := some ("protocol:P7") }] } }

/-- A test carrying none of the four encodings. -/
def tNone : Resource := { id := some ("t0") }

/-- C6 witness: the theorem applied to a tag-only test amongst a
non-matching one. -/
theorem C6_test_association_fallback_chain_witness :
    (test_matches_protocol tM2 ("P7") = true ↔
      SpecTestEnc1 tM2 ("P7") ∨ SpecTestEnc2 tM2 ("P7") ∨
      SpecTestEnc3 tM2 ("P7") ∨ SpecTestEnc4 tM2 ("P7")) ∧
    activityTestsFor (fun _ => none) ("P7") [tNone, tM2] =
      ([tNone, tM2].filter (fun x => test_matches_protocol x ("P7"))).map
        (mkTestInfo (fun _ => none)) ∧
    mkTestInfo (fun _ => none) tM2 ∈
      activityTestsFor (fun _ => none) ("P7") [tNone, tM2] := by
  have h := C6_test_association_fallback_chain (fun _ => none) ("P7") tM2 [tNone, tM2]
  exact ⟨h.1, h.2.1, h.2.2.1 (by simp) rfl⟩

/-! ### C7 -/

/-- The C7 batch-creation request from the spec scenario. -/
def bcC7 : BatchCreate :=
  { name := "B1", identifier := "ID1", protocol_id := some ("P1"),
    lot_number := some ("L1") }

/-- A protocol P1, with a product reference for good measure. -/
def protoC7 : Resource :=
  { id := some ("P1"),
    subjectReference := some { reference := some ("MedicinalProductDefinition/MP9") } }

set_option maxRecDepth 10000 in
/-- C7 (code-bug evidence): `POST /batches` silently drops the
`protocol_id` of its input model — the created Medication body is
identical with or without it — and the protocol-filtered
`GET /batches?protocol_id=P1` therefore excludes the created batch
(whether or not the protocol carries a product reference), instead of
returning exactly that batch. -/
theorem C7_create_batch_drops_protocol_link :
    create_batch_resource bcC7 = create_batch_resource { bcC7 with protocol_id := none } ∧
    get_batches_filtered (some protoC7)
      [{ create_batch_resource bcC7 with id := some ("m1") }] ("P1") = [] ∧
    get_batches_filtered none
      [{ create_batch_resource bcC7 with id := some ("m1") }] ("P1") = [] := by
  refine ⟨rfl, ?_, ?_⟩ <;> rfl

/-! ### C2 -/

/-- The source protocol of the C2 scenario. -/
def protoC2 : Resource := { id := some ("p1") }

/-- A target organization with a configured endpoint. -/
def orgC2 : Resource :=
  { name := some ("CRO One"),
    extension := some [{ url := some orgUrlExtUrl,
                         valueString := some ("http://cro.example/fhir") }] }

/-- The C2 world: protocol loads, local update succeeds, the target
organization resolves and its endpoint accepts the POST. -/
def worldC2 : ShareWorld :=
  { planDefFetch := .resp 200 protoC2 "",
    localPut := .resp 200 {} "",
    orgW := fun _ =>
      { orgFetch := .resp 200 orgC2 "",
        pushW := { ensureW := { searchResp := .conn ("down") },
                   postResp := .resp 201 "" "" } } }

/-- The C2 request: specific tests mode with an empty selection. -/
def reqC2 : ProtocolShareRequest :=
  { organization_ids := ["o1"], share_mode := "specificTests", selected_tests := [] }

set_option maxRecDepth 10000 in
/-- C2 (code-bug evidence): sharing in `specificTests` mode with an
empty selection reports a *success* entry ("Successfully shared
selected tests ...") and submits the protocol resource to the target
organization's endpoint — the source's own "No tests selected" guard
sits behind a condition requiring a non-empty selection and is
unreachable. -/
theorem C2_empty_selection_still_pushes :
    (share_protocol {} worldC2 ("p1") reqC2).1 =
      .ok { message := "Protocol p1 shared with 1 organizations",
            share_results :=
              [{ organization_id := "o1", organization_name := some ("CRO One"),
                 success := true,
                 message := "Successfully shared selected tests to http://cro.example/fhir" }],
            batches_shared := some 0 } ∧
    ((share_protocol {} worldC2 ("p1") reqC2).2.2.filterMap
      (fun s => match s with
        | Submission.postPlanDef u _ => some u
        | _ => none)) = ["http://cro.example/fhir/PlanDefinition"] := by
  refine ⟨?_, ?_⟩ <;> rfl

/-! ### C1 -/

/-- C1 counterexample world: the protocol loads fine but the local
sharing-extension update is rejected by the repository. -/
def worldC1bad : ShareWorld :=
  { planDefFetch := .resp 200 { id := some ("p1") } "",
    localPut := .resp 500 {} "boom" }

/-- The request used by the C1 counterexample. -/
def reqC1bad : ProtocolShareRequest := { organization_ids := ["o1"] }

/-- C1 counterexample: the source Protocol exists, yet the call aborts
with a 500 because the local update fails — so it is not true that only
failure to load the source Protocol aborts the whole call, nor that the
call always returns success when the protocol exists. -/
theorem C1_localput_abort_counterexample :
    (share_protocol {} worldC1bad ("p1") reqC1bad).1 =
      .error ⟨500, "Failed to share protocol: boom"⟩ := by
  rfl

/-- C1 (amended): when the source Protocol loads *and* the local
sharing-extension update succeeds, the share operation returns a
success-level response whose result list is exactly one independently
computed entry per target organization; an organization with no
endpoint url yields a no-endpoint failure entry, a rejected bundle
submission yields a failure entry carrying the response body, an
exception during assembly yields an error entry, an accepted bundle a
success entry — and none of these affects the response status or the
other organizations' entries. -/
theorem C1_share_partial_failure_isolated (env : SponsorEnv) (w : ShareWorld)
    (pid : String) (req : ProtocolShareRequest) (proto r2 : Resource)
    (s s2 : Nat) (t t2 : String)
    (hfetch : w.planDefFetch = .resp s proto t) (hs : s < 400)
    (hput : w.localPut = .resp s2 r2 t2) (hs2 : s2 < 400) :
    (share_protocol env w pid req).1 =
      .ok { message := "Protocol " ++ pid ++ " shared with " ++
              toString req.organization_ids.length ++ " organizations",
            share_results := req.organization_ids.map (fun oid =>
              (process_org env req (updatedLocalProtocol proto req.organization_ids)
                pid oid (w.orgW oid)).1),
            batches_shared :=
              if req.shareBatches then some req.selectedBatches.length else none } ∧
    (∀ out, (share_protocol env w pid req).1 = .ok out →
      out.share_results.length = req.organization_ids.length) ∧
    (∀ oid org tOrg, (w.orgW oid).orgFetch = .resp 200 org tOrg →
      orgUrlOf org = none →
      (process_org env req (updatedLocalProtocol proto req.organization_ids)
        pid oid (w.orgW oid)).1 =
        { organization_id := oid, organization_name := some (org.name.getD ("Unknown")),
          success := false,
          message := "No FHIR server URL provided for this organization" }) ∧
    (∀ oid org tOrg url m, (w.orgW oid).orgFetch = .resp 200 org tOrg →
      orgUrlOf org = some url → bundleBranchCond req = true →
      (w.orgW oid).testsFetch = .conn m →
      (process_org env req (updatedLocalProtocol proto req.organization_ids)
        pid oid (w.orgW oid)).1 =
        { organization_id := oid, organization_name := org.name, success := false,
          message := "Error sharing protocol: " ++ m }) ∧
    (∀ oid org tOrg url ts allb tt tents bs bb bt,
      (w.orgW oid).orgFetch = .resp 200 org tOrg →
      orgUrlOf org = some url → bundleBranchCond req = true →
      (w.orgW oid).testsFetch = .resp ts allb tt → ts < 400 →
      associatedTestsOf pid pid allb = .ok tents →
      (w.orgW oid).bundlePost = .resp bs bb bt → is2xx bs = false →
      (process_org env req (updatedLocalProtocol proto req.organization_ids)
        pid oid (w.orgW oid)).1 =
        { organization_id := oid, organization_name := org.name, success := false,
          message := "Failed to share protocol: " ++ bt }) ∧
    (∀ oid org tOrg url ts allb tt tents bs bb bt,
      (w.orgW oid).orgFetch = .resp 200 org tOrg →
      orgUrlOf org = some url → bundleBranchCond req = true →
      (w.orgW oid).testsFetch = .resp ts allb tt → ts < 400 →
      associatedTestsOf pid pid allb = .ok tents →
      (w.orgW oid).bundlePost = .resp bs bb bt → is2xx bs = true →
      ((process_org env req (updatedLocalProtocol proto req.organization_ids)
        pid oid (w.orgW oid)).1).success = true) := by
  have hmain : (share_protocol env w pid req).1 =
      .ok { message := "Protocol " ++ pid ++ " shared with " ++
              toString req.organization_ids.length ++ " organizations",
            share_results := req.organization_ids.map (fun oid =>
              (process_org env req (updatedLocalProtocol proto req.organization_ids)
                pid oid (w.orgW oid)).1),
            batches_shared :=
              if req.shareBatches then some req.selectedBatches.length else none } := by
    unfold share_protocol
    rw [hfetch]
    simp only [ReqRes.toExc, if_neg (Nat.not_le.mpr hs)]
    rw [hput]
    simp only [if_neg (Nat.not_le.mpr hs2)]
    simp [List.map_map, Function.comp]
  refine ⟨hmain, ?_, ?_, ?_, ?_, ?_⟩
  · intro out hout
    rw [hmain] at hout
    cases hout
    simp
  · intro oid org tOrg hof hurl
    simp [process_org, hof, hurl]
  · intro oid org tOrg url m hof hurl hcond htests
    simp [process_org, hof, hurl, hcond, processOrgBundle, htests, ReqRes.toExc]
  · intro oid org tOrg url ts allb tt tents bs bb bt hof hurl hcond htests hts hgather hpost hrej
    simp [process_org, hof, hurl, hcond, processOrgBundle, htests, ReqRes.toExc,
      if_neg (Nat.not_le.mpr hts), hgather, hpost, hrej]
  · intro oid org tOrg url ts allb tt tents bs bb bt hof hurl hcond htests hts hgather hpost hok
    simp [process_org, hof, hurl, hcond, processOrgBundle, htests, ReqRes.toExc,
      if_neg (Nat.not_le.mpr hts), hgather, hpost, hok]

/-- The C1 witness protocol. -/
def protoC1 : Resource := { id := some ("p9") }

/-- Organization with no endpoint configured. -/
def orgNoUrlC1 : Resource := { name := some ("Org A") }

/-- Organization whose endpoint accepts the bundle. -/
def orgOkC1 : Resource :=
  { name := some ("Org B"),
    extension := some [{ url := some orgUrlExtUrl,
                         valueString := some ("http://b.example/server") }] }

/-- Organization whose endpoint rejects the bundle with a 422. -/
def orgRejC1 : Resource :=
  { name := some ("Org C"),
    extension := some [{ url := some orgUrlExtUrl,
                         valueString := some ("http://c.example/server") }] }

/-- The C1 witness world: three organizations — no endpoint, accepted
bundle, rejected bundle. -/
def worldC1ok : ShareWorld :=
  { planDefFetch := .resp 200 protoC1 "",
    localPut := .resp 200 {} "",
    orgW := fun oid =>
      if oid == "oa" then { orgFetch := .resp 200 orgNoUrlC1 "" }
      else if oid == "ob" then
        { orgFetch := .resp 200 orgOkC1 "",
          testsFetch := .resp 200 { resourceType := some ("Bundle") } "",
          bundlePost := .resp 201 "" "" }
      else
        { orgFetch := .resp 200 orgRejC1 "",
          testsFetch := .resp 200 { resourceType := some ("Bundle") } "",
          bundlePost := .resp 422 "" "rejected-by-target" } }

/-- The C1 witness request: full protocol to the three organizations. -/
def reqC1ok : ProtocolShareRequest := { organization_ids := ["oa", "ob", "oc"] }

set_option maxRecDepth 10000 in
/-- C1 witness: the amended theorem at the spec's three-organization
scenario — one missing-endpoint failure, one success, one rejected
submission carrying the response body, and the call still succeeds. -/
theorem C1_share_partial_failure_isolated_witness :
    (share_protocol {} worldC1ok ("p9") reqC1ok).1 =
      .ok { message := "Protocol p9 shared with 3 organizations",
            share_results :=
              [{ organization_id := "oa", organization_name := some ("Org A"),
                 success := false,
                 message := "No FHIR server URL provided for this organization" },
               { organization_id := "ob", organization_name := some ("Org B"),
                 success := true,
                 message := "Successfully shared protocol to http://b.example/server" },
               { organization_id := "oc", organization_name := some ("Org C"),
                 success := false,
                 message := "Failed to share protocol: rejected-by-target" }],
            batches_shared := some 0 } := by
  have h := C1_share_partial_failure_isolated {} worldC1ok ("p9") reqC1ok
    protoC1 {} 200 200 ("") ("") rfl (by decide) rfl (by decide)
  exact h.1.trans (by rfl)

/-! ### C9 -/

/-- The batch-marking loop writes only Medication resources. -/
theorem markBatches_no_plandef (w : ShareWorld) (ids : List String)
    (bs : List String) :
    (markBatchesLoop w ids bs).filter LocalWrite.isPlanDefPut = [] := by
  induction bs with
  | nil => rfl
  | cons b rest ih =>
    unfold markBatchesLoop
    cases h : (w.markBatchFetch b).toExc with
    | error e => simp [h, ih]
    | ok v => simp [h, ih, LocalWrite.isPlanDefPut]

/-- No extension of the filtered remainder carries the
shared-organizations url. -/
theorem countP_filter_not (l : List Extension) :
    (l.filter (fun e => !(e.url == some sharedOrgsUrl))).countP
      (fun e => e.url == some sharedOrgsUrl) = 0 := by
  rw [List.countP_eq_zero]
  intro e he
  have := (List.mem_filter.mp he).2
  simpa using this

/-- C9 (amended): whenever the source Protocol loads, the whole call
issues exactly one local protocol update, whatever the number of target
organizations; its body strips every existing shared-organizations
extension and keeps all other extensions in place, appending — only
when the target list is non-empty — a single extension listing exactly
one reference per target organization in request order (no such
extension is written for an empty target list). -/
theorem C9_local_share_recording (env : SponsorEnv) (w : ShareWorld)
    (pid : String) (req : ProtocolShareRequest) (proto : Resource)
    (s : Nat) (t : String)
    (hfetch : w.planDefFetch = .resp s proto t) (hs : s < 400) :
    ((share_protocol env w pid req).2.1.filter LocalWrite.isPlanDefPut) =
      [LocalWrite.putPlanDef pid (updatedLocalProtocol proto req.organization_ids)] ∧
    (updatedLocalProtocol proto req.organization_ids).extension =
      some ((proto.extension.getD []).filter (fun e => !(e.url == some sharedOrgsUrl)) ++
        (if req.organization_ids.isEmpty then []
         else [shareExtensionOf req.organization_ids])) ∧
    ((updatedLocalProtocol proto req.organization_ids).extension.getD []).countP
        (fun e => e.url == some sharedOrgsUrl) =
      (if req.organization_ids.isEmpty then 0 else 1) ∧
    (shareExtensionOf req.organization_ids).sub =
      some (req.organization_ids.map (fun i =>
        { url := none, valueString := none,
          valueReference := some { reference := some ("Organization/" ++ i),
                                   display := none, resourceId := none } })) := by
  refine ⟨?_, rfl, ?_, rfl⟩
  · unfold share_protocol
    rw [hfetch]
    simp only [ReqRes.toExc, if_neg (Nat.not_le.mpr hs)]
    cases hlp : w.localPut with
    | conn m => simp [LocalWrite.isPlanDefPut]
    | resp s2 b2 t2 =>
      by_cases h4 : 400 ≤ s2
      · simp [h4, LocalWrite.isPlanDefPut]
      · simp only [h4, if_false]
        simp [LocalWrite.isPlanDefPut, List.filter_append]
        intro a _ ha
        have h0 := markBatches_no_plandef w req.organization_ids req.selectedBatches
        have h1 := List.filter_eq_nil_iff.mp h0 a ha
        cases a <;> simp_all [LocalWrite.isPlanDefPut]
  · show ((updatedLocalProtocol proto req.organization_ids).extension.getD []).countP
        (fun e => e.url == some sharedOrgsUrl) = _
    unfold updatedLocalProtocol
    simp only [Option.getD_some]
    rw [List.countP_append]
    rw [countP_filter_not]
    cases hor : req.organization_ids.isEmpty <;>
      simp [hor, shareExtensionOf, List.countP_cons]

/-- The C9 counterexample / witness protocol: one foreign extension and
one stale shared-organizations extension. -/
def protoC9 : Resource :=
  { id := some ("p5"),
    extension := some
      [{ url := some sponsorUrl, valueString := some ("Acme") },
       { url := some sharedOrgsUrl,
         sub := some [{ valueReference := some { reference := some ("Organization/old") } }] }] }

/-- World for the C9 counterexample. -/
def worldC9bad : ShareWorld :=
  { planDefFetch := .resp 200 protoC9 "", localPut := .conn ("") }

/-- The empty-target C9 request. -/
def reqC9bad : ProtocolShareRequest := { organization_ids := [] }

/-- C9 counterexample: with an empty target list the single local
update strips the stale shared-organizations extension but appends no
replacement at all — the written body carries zero shared-organizations
extensions, not the claimed single one. -/
theorem C9_empty_targets_counterexample :
    (share_protocol {} worldC9bad ("p5") reqC9bad).2.1 =
      [LocalWrite.putPlanDef ("p5")
        { protoC9 with extension := some [{ url := some sponsorUrl, valueString := some ("Acme") }] }] ∧
    ((updatedLocalProtocol protoC9 []).extension.getD []).countP
      (fun e => e.url == some sharedOrgsUrl) = 0 := by
  refine ⟨?_, ?_⟩ <;> rfl

/-- World for the C9 witness. -/
def worldC9ok : ShareWorld :=
  { planDefFetch := .resp 200 protoC9 "", localPut := .resp 200 {} "" }

/-- The two-target C9 request. -/
def reqC9ok : ProtocolShareRequest := { organization_ids := ["o1", "o2"] }

/-- C9 witness: the amended theorem at a concrete protocol with two
targets — exactly one local protocol write, whose body keeps the
foreign extension, drops the stale listing and carries exactly one
fresh shared-organizations extension. -/
theorem C9_local_share_recording_witness :
    ((share_protocol {} worldC9ok ("p5") reqC9ok).2.1.filter LocalWrite.isPlanDefPut) =
      [LocalWrite.putPlanDef ("p5") (updatedLocalProtocol protoC9 ["o1", "o2"])] ∧
    ((updatedLocalProtocol protoC9 ["o1", "o2"]).extension.getD []).countP
      (fun e => e.url == some sharedOrgsUrl) = 1 := by
  have h := C9_local_share_recording {} worldC9ok ("p5") reqC9ok protoC9 200 ("")
    rfl (by decide)
  exact ⟨h.1, h.2.2.1⟩

end FhirCmc
